import Mathlib

set_option maxRecDepth 4000

/-!
Shallow embedding of the "Anti-calculator" repository: a conversational
mortgage assistant whose deterministic core consists of

* `lib/math.ts`   — EMI / mortgage / buy-vs-rent arithmetic,
* `lib/extractors.ts` — regex parameter extraction from free text,
* `app/api/chat/route.ts` — tool dispatch, context-window building and the
  streaming orchestrator,
* `lib/mistral.ts` — tool schemas and system prompts.

JavaScript numbers are modelled by exact rationals extended with the three
non-finite values `+Infinity`, `-Infinity` and `NaN`.  An absent (undefined)
argument behaves exactly like `NaN` under every arithmetic operation and
comparison that this code performs on it, so `undefined` flowing into
arithmetic is mapped to `nan`; where JavaScript distinguishes `undefined`
(object field presence, default parameter values, truthiness of `0`) the
embedding uses `Option ℚ` explicitly.
-/

/-- Model of a JavaScript number: a finite rational or one of the three
non-finite values. -/
inductive JsNum where
  | num (q : ℚ)
  | posInf
  | negInf
  | nan
deriving DecidableEq, Repr

namespace JsNum

/-- JavaScript `<=` (false whenever either side is `NaN`). -/
def jle : JsNum → JsNum → Bool
  | num a, num b => decide (a ≤ b)
  | num _, posInf => true
  | num _, negInf => false
  | posInf, posInf => true
  | posInf, num _ => false
  | posInf, negInf => false
  | negInf, nan => false
  | negInf, _ => true
  | nan, _ => false
  | _, nan => false

/-- JavaScript `<` (false whenever either side is `NaN`). -/
def jlt : JsNum → JsNum → Bool
  | num a, num b => decide (a < b)
  | num _, posInf => true
  | num _, negInf => false
  | posInf, _ => false
  | negInf, nan => false
  | negInf, negInf => false
  | negInf, _ => true
  | nan, _ => false
  | _, nan => false

/-- JavaScript `>`. -/
def jgt (a b : JsNum) : Bool := jlt b a

/-- JavaScript strict equality `===` on numbers (`NaN === x` is false). -/
def jeqS : JsNum → JsNum → Bool
  | num a, num b => decide (a = b)
  | posInf, posInf => true
  | negInf, negInf => true
  | _, _ => false

/-- JavaScript `+`. -/
def jadd : JsNum → JsNum → JsNum
  | num a, num b => num (a + b)
  | nan, _ => nan
  | _, nan => nan
  | posInf, negInf => nan
  | negInf, posInf => nan
  | posInf, _ => posInf
  | _, posInf => posInf
  | negInf, _ => negInf
  | _, negInf => negInf

/-- JavaScript `-`. -/
def jsub : JsNum → JsNum → JsNum
  | num a, num b => num (a - b)
  | nan, _ => nan
  | _, nan => nan
  | posInf, posInf => nan
  | negInf, negInf => nan
  | posInf, _ => posInf
  | negInf, _ => negInf
  | num _, posInf => negInf
  | num _, negInf => posInf

/-- JavaScript `*`. -/
def jmul : JsNum → JsNum → JsNum
  | num a, num b => num (a * b)
  | nan, _ => nan
  | _, nan => nan
  | posInf, posInf => posInf
  | posInf, negInf => negInf
  | negInf, posInf => negInf
  | negInf, negInf => posInf
  | posInf, num b => if b = 0 then nan else if 0 < b then posInf else negInf
  | num a, posInf => if a = 0 then nan else if 0 < a then posInf else negInf
  | negInf, num b => if b = 0 then nan else if 0 < b then negInf else posInf
  | num a, negInf => if a = 0 then nan else if 0 < a then negInf else posInf

/-- JavaScript `/`.  Division of a nonzero finite number by zero yields a
signed infinity, `0 / 0` yields `NaN`. -/
def jdiv : JsNum → JsNum → JsNum
  | nan, _ => nan
  | _, nan => nan
  | posInf, posInf => nan
  | posInf, negInf => nan
  | negInf, posInf => nan
  | negInf, negInf => nan
  | posInf, num b => if b < 0 then negInf else posInf
  | negInf, num b => if b < 0 then posInf else negInf
  | num _, posInf => num 0
  | num _, negInf => num 0
  | num a, num b =>
      if b = 0 then (if 0 < a then posInf else if a < 0 then negInf else nan)
      else num (a / b)

/-- JavaScript `Math.round`: nearest integer, ties toward `+∞`. -/
def jround : JsNum → JsNum
  | num q => num ((⌊q + 1/2⌋ : ℤ) : ℚ)
  | posInf => posInf
  | negInf => negInf
  | nan => nan

/-- JavaScript `Math.pow`, exact on integer exponents.  `Math.pow x 0 = 1`
for every base.  For a rational base and a non-integer exponent the true
value is an irrational real with no rational representation; such a call is
mapped to `nan`.  The repository only reaches `Math.pow` with exponent
`tenureYears * 12`, so every integral month count is modelled exactly, and
theorems that depend on the value of the power carry an integrality
hypothesis on the month count. -/
def jpow : JsNum → JsNum → JsNum
  | b, num e =>
      if e = 0 then num 1
      else
        match b with
        | num bq =>
            if e.den = 1 then
              if 0 < e.num then num (bq ^ e.num.toNat)
              else if bq = 0 then posInf
              else num (bq ^ e.num)
            else nan
        | posInf => if 0 < e then posInf else num 0
        | negInf => nan
        | nan => nan
  | _, _ => nan

end JsNum

open JsNum

/-! ### `lib/math.ts` — deterministic mortgage arithmetic -/

namespace UAE_CONSTANTS

def MAX_LTV : ℚ := 80 / 100

def MIN_DOWN_PAYMENT : ℚ := 20 / 100

def UPFRONT_COST_PERCENTAGE : ℚ := 7 / 100

def INTEREST_RATE : ℚ := 45 / 1000

def MAX_TENURE : ℚ := 25

end UAE_CONSTANTS

/-- `MortgageInputs` (optional fields are `undefined` when absent). -/
structure MortgageInputs where
  propertyPrice : ℚ
  downPayment : Option ℚ := none
  tenure : Option ℚ := none
  interestRate : Option ℚ := none
deriving DecidableEq, Repr

/-- `MortgageCalculation`.  The `emi` field is produced by `calculateEMI`
and is kept at the JavaScript-number level. -/
structure MortgageCalculation where
  propertyPrice : ℚ
  downPayment : ℚ
  loanAmount : ℚ
  ltv : ℚ
  upfrontCosts : ℚ
  totalUpfront : ℚ
  emi : JsNum
  tenure : ℚ
  interestRate : ℚ
deriving DecidableEq, Repr

/-- `calculateEMI` over JavaScript numbers.  The source's default parameter
values (`annualInterestRate = 0.045`, `tenureYears = 25`) are applied by the
callers when the corresponding argument is `undefined`. -/
def calculateEMI (loanAmount annualInterestRate tenureYears : JsNum) : JsNum :=
  if jle loanAmount (num 0) then num 0
  else if jle tenureYears (num 0) then num 0
  else if jlt annualInterestRate (num 0) then num 0
  else
    let monthlyRate := jdiv annualInterestRate (num 12)
    let numberOfMonths := jmul tenureYears (num 12)
    if jeqS monthlyRate (num 0) then jdiv loanAmount numberOfMonths
    else
      let p := jpow (jadd (num 1) monthlyRate) numberOfMonths
      let emi := jdiv (jmul (jmul loanAmount monthlyRate) p) (jsub p (num 1))
      jdiv (jround (jmul emi (num 100))) (num 100)

def calculateMaxLoanAmount (propertyPrice : ℚ) : ℚ :=
  propertyPrice * UAE_CONSTANTS.MAX_LTV

def calculateMinDownPayment (propertyPrice : ℚ) : ℚ :=
  propertyPrice * UAE_CONSTANTS.MIN_DOWN_PAYMENT

def calculateUpfrontCosts (propertyPrice : ℚ) : ℚ :=
  propertyPrice * UAE_CONSTANTS.UPFRONT_COST_PERCENTAGE

def calculateTotalUpfront (propertyPrice downPayment : ℚ) : ℚ :=
  downPayment + calculateUpfrontCosts propertyPrice

def calculateLTV (propertyPrice downPayment : ℚ) : ℚ :=
  if propertyPrice ≤ 0 then 0
  else (propertyPrice - downPayment) / propertyPrice

/-- `validateDownPayment`. -/
structure DownPaymentValidation where
  valid : Bool
  minRequired : ℚ
  actual : ℚ
deriving DecidableEq, Repr

def validateDownPayment (propertyPrice downPayment : ℚ) : DownPaymentValidation :=
  let minRequired := calculateMinDownPayment propertyPrice
  { valid := decide (minRequired ≤ downPayment), minRequired, actual := downPayment }

/-- `calculateMortgage`.  `providedDownPayment || minDown` defaults a falsy
(absent or zero) down payment; destructuring defaults resolve the absent
tenure and rate. -/
def calculateMortgage (inputs : MortgageInputs) : MortgageCalculation :=
  let propertyPrice := inputs.propertyPrice
  let tenure := inputs.tenure.getD UAE_CONSTANTS.MAX_TENURE
  let interestRate := inputs.interestRate.getD UAE_CONSTANTS.INTEREST_RATE
  let finalTenure := min tenure UAE_CONSTANTS.MAX_TENURE
  let minDownPayment := calculateMinDownPayment propertyPrice
  let downPayment0 :=
    match inputs.downPayment with
    | some d => if d = 0 then minDownPayment else d
    | none => minDownPayment
  let downPayment := if downPayment0 < minDownPayment then minDownPayment else downPayment0
  let loanAmount := propertyPrice - downPayment
  let maxLoan := calculateMaxLoanAmount propertyPrice
  if maxLoan < loanAmount then
    let adjustedDownPayment := propertyPrice - maxLoan
    { propertyPrice := propertyPrice
      downPayment := adjustedDownPayment
      loanAmount := maxLoan
      ltv := UAE_CONSTANTS.MAX_LTV
      upfrontCosts := calculateUpfrontCosts propertyPrice
      totalUpfront := calculateTotalUpfront propertyPrice adjustedDownPayment
      emi := calculateEMI (num maxLoan) (num interestRate) (num finalTenure)
      tenure := finalTenure
      interestRate := interestRate }
  else
    { propertyPrice := propertyPrice
      downPayment := downPayment
      loanAmount := loanAmount
      ltv := calculateLTV propertyPrice downPayment
      upfrontCosts := calculateUpfrontCosts propertyPrice
      totalUpfront := calculateTotalUpfront propertyPrice downPayment
      emi := calculateEMI (num loanAmount) (num interestRate) (num finalTenure)
      tenure := finalTenure
      interestRate := interestRate }

/-- `BuyVsRentInputs`. -/
structure BuyVsRentInputs where
  propertyPrice : ℚ
  monthlyRent : ℚ
  downPayment : Option ℚ := none
  tenure : Option ℚ := none
  stayDuration : Option ℚ := none
  interestRate : Option ℚ := none
deriving DecidableEq, Repr

inductive BVRRecommendation where
  | buy
  | rent
  | neutral
deriving DecidableEq, Repr

/-- `BuyVsRentAnalysis`.  The `reasoning` narrative string (built with
locale-dependent number formatting) carries no decision content and is not
modelled; the optional `breakEvenYears` field is never assigned by the
source and is likewise omitted. -/
structure BuyVsRentAnalysis where
  recommendation : BVRRecommendation
  monthlyEMI : JsNum
  monthlyRent : ℚ
  upfrontCosts : ℚ
  stayDuration : ℚ
deriving DecidableEq, Repr

/-- `analyzeBuyVsRent`: classification by `stayDuration` against the fixed
thresholds 3 and 5; `stayDuration` destructures to the default 5 when the
field is absent. -/
def analyzeBuyVsRent (inputs : BuyVsRentInputs) : BuyVsRentAnalysis :=
  let tenure := inputs.tenure.getD UAE_CONSTANTS.MAX_TENURE
  let stayDuration := inputs.stayDuration.getD 5
  let interestRate := inputs.interestRate.getD UAE_CONSTANTS.INTEREST_RATE
  let mortgage := calculateMortgage
    { propertyPrice := inputs.propertyPrice
      downPayment := inputs.downPayment
      tenure := some tenure
      interestRate := some interestRate }
  let recommendation : BVRRecommendation :=
    if stayDuration < 3 then .rent
    else if 5 < stayDuration then .buy
    else .neutral
  { recommendation := recommendation
    monthlyEMI := mortgage.emi
    monthlyRent := inputs.monthlyRent
    upfrontCosts := mortgage.upfrontCosts
    stayDuration := stayDuration }

/-! ### `lib/extractors.ts` — regex-based parameter extraction

The extractor's five patterns all have the shape *capture group followed by
a positive lookahead*.  A small backtracking matcher reproduces the
JavaScript regex semantics (leftmost match, greedy quantifiers with
backtracking, ordered alternation, positive lookahead, word boundary,
case-insensitive flag) for the exact constructs those patterns use. -/

/-- The regular-expression fragment used by the extractor patterns. -/
inductive RE where
  | eps
  | cls (p : Char → Bool)
  | seq (a b : RE)
  | alt (a b : RE)
  | opt (r : RE)
  | star (r : RE)
  | look (r : RE)
  | wb

/-- JavaScript `\w`: ASCII letters, digits and underscore. -/
def isWordChar (c : Char) : Bool :=
  ('a' ≤ c && c ≤ 'z') || ('A' ≤ c && c ≤ 'Z') || ('0' ≤ c && c ≤ '9') || c == '_'

/-- `\b` holds between `prev` (the character before the current position)
and the start of `s`. -/
def atWordBoundary (prev : Option Char) (s : List Char) : Bool :=
  match prev, s with
  | none, [] => false
  | none, c :: _ => isWordChar c
  | some p, [] => isWordChar p
  | some p, c :: _ => isWordChar p != isWordChar c

/-- Backtracking matcher: tries every way `re` can consume a prefix of `s`,
in the priority order JavaScript regexes use (greedy quantifiers first,
left alternative first), and succeeds if the continuation `k` succeeds on
some remainder.  `fuel` only bounds recursion depth; every evaluation in
this file supplies more fuel than any backtracking path can consume. -/
def mrunB : Nat → RE → Option Char → List Char → (Option Char → List Char → Bool) → Bool
  | 0, _, _, _, _ => false
  | fuel + 1, re, prev, s, k =>
    match re with
    | .eps => k prev s
    | .cls p =>
        match s with
        | [] => false
        | c :: rest => p c && k (some c) rest
    | .seq a b => mrunB fuel a prev s (fun p2 s2 => mrunB fuel b p2 s2 k)
    | .alt a b => mrunB fuel a prev s k || mrunB fuel b prev s k
    | .opt r => mrunB fuel r prev s k || k prev s
    | .star r => mrunB fuel r prev s (fun p2 s2 => mrunB fuel (.star r) p2 s2 k) || k prev s
    | .look r => mrunB fuel r prev s (fun _ _ => true) && k prev s
    | .wb => atWordBoundary prev s && k prev s

/-- Like `mrunB` but the continuation produces the captured text; the first
continuation success in backtracking-priority order wins. -/
def mcap : Nat → RE → Option Char → List Char →
    (Option Char → List Char → Option (List Char)) → Option (List Char)
  | 0, _, _, _, _ => none
  | fuel + 1, re, prev, s, k =>
    match re with
    | .eps => k prev s
    | .cls p =>
        match s with
        | [] => none
        | c :: rest => if p c then k (some c) rest else none
    | .seq a b => mcap fuel a prev s (fun p2 s2 => mcap fuel b p2 s2 k)
    | .alt a b => (mcap fuel a prev s k) <|> (mcap fuel b prev s k)
    | .opt r => (mcap fuel r prev s k) <|> k prev s
    | .star r => (mcap fuel r prev s (fun p2 s2 => mcap fuel (.star r) p2 s2 k)) <|> k prev s
    | .look r => if mrunB fuel r prev s (fun _ _ => true) then k prev s else none
    | .wb => if atWordBoundary prev s then k prev s else none

/-- Leftmost match of capture group `grp` followed by the positive lookahead
`lk` — the shape of every extractor pattern — returning the text captured by
the group, as `String.prototype.match(...)[1]` does. -/
def reFind (fuel : Nat) (grp lk : RE) : Option Char → List Char → Option (List Char)
  | prev, s =>
    match mcap fuel grp prev s
        (fun p2 s2 =>
          if mrunB fuel lk p2 s2 (fun _ _ => true) then some (s.take (s.length - s2.length))
          else none) with
    | some cap => some cap
    | none =>
        match s with
        | [] => none
        | c :: rest => reFind fuel grp lk (some c) rest

/-- A case-insensitive literal character (the extractor patterns carry the
`i` flag). -/
def chrCI (c : Char) : RE := .cls (fun x => x.toLower == c)

/-- A case-insensitive literal word. -/
def lit (w : String) : RE := w.data.foldr (fun c r => .seq (chrCI c) r) .eps

/-- Ordered alternation `a|b|...`. -/
def alts : List RE → RE
  | [] => .eps
  | [r] => r
  | r :: rs => .alt r (alts rs)

/-- `\d`. -/
def digitC : RE := .cls Char.isDigit

/-- `[\d,.]`. -/
def numBodyC : RE := .cls (fun c => c.isDigit || c == ',' || c == '.')

/-- `\s`. -/
def wsC : RE := .cls Char.isWhitespace

/-- `[mk]` under the case-insensitive flag. -/
def mkC : RE := .cls (fun c => c.toLower == 'm' || c.toLower == 'k')

/-- `.` (no dot-all flag): anything but a line terminator. -/
def dotAnyC : RE :=
  .cls (fun c => !(c == '\n' || c == '\r' || c == ' ' || c == ' '))

/-- Capture group `(\d[\d,.]*\s*[mk]?)` shared by the four amount patterns. -/
def amountGroup : RE :=
  .seq digitC (.seq (.star numBodyC) (.seq (.star wsC) (.opt mkC)))

/-- Capture group `(\d+(\.\d+)?)` of the tenure and stay patterns. -/
def yearsGroup : RE :=
  .seq digitC (.seq (.star digitC)
    (.opt (.seq (chrCI '.') (.seq digitC (.star digitC)))))

/-- Lookahead `(?=\s*(aed|dh|dirham|property|apartment|villa|flat|price|cost))`. -/
def priceLookahead : RE :=
  .seq (.star wsC)
    (alts [lit "aed", lit "dh", lit "dirham", lit "property", lit "apartment",
           lit "villa", lit "flat", lit "price", lit "cost"])

/-- Lookahead `(?=\s*(aed)?\s*(\/month|per month|monthly|income|salary))`. -/
def incomeLookahead : RE :=
  .seq (.star wsC) (.seq (.opt (lit "aed")) (.seq (.star wsC)
    (alts [lit "/month", lit "per month", lit "monthly", lit "income", lit "salary"])))

/-- Lookahead `(?=\s*(aed)?\s*(down|dp|downpayment|down payment))`. -/
def downLookahead : RE :=
  .seq (.star wsC) (.seq (.opt (lit "aed")) (.seq (.star wsC)
    (alts [lit "down", lit "dp", lit "downpayment", lit "down payment"])))

/-- Lookahead `(?=\s*(aed)?\s*(rent|rental|lease))`. -/
def rentLookahead : RE :=
  .seq (.star wsC) (.seq (.opt (lit "aed")) (.seq (.star wsC)
    (alts [lit "rent", lit "rental", lit "lease"])))

/-- Lookahead `(?=\s*(year|years|yrs|y)\b)`. -/
def tenureLookahead : RE :=
  .seq (.star wsC) (.seq (alts [lit "year", lit "years", lit "yrs", lit "y"]) .wb)

/-- Lookahead `(?=\s*(year|years|yrs|y)\b.*(stay|staying|live|living))`. -/
def stayLookahead : RE :=
  .seq (.star wsC) (.seq (alts [lit "year", lit "years", lit "yrs", lit "y"])
    (.seq .wb (.seq (.star dotAnyC)
      (alts [lit "stay", lit "staying", lit "live", lit "living"]))))

def digitsToNat (ds : List Char) : ℕ :=
  ds.foldl (fun n c => 10 * n + (c.toNat - 48)) 0

/-- JavaScript `parseFloat` for inputs without exponent notation: skip
leading whitespace, optional sign, integer digits, optional fraction; stop
at the first character that cannot extend the number; `NaN` (here `none`)
when no digit was consumed.  The extractor's inputs to `parseFloat` consist
only of digits, dots and whitespace, so exponent notation cannot occur. -/
def parseFloatQ (s : List Char) : Option ℚ :=
  let s1 := s.dropWhile Char.isWhitespace
  let signAndRest : ℚ × List Char :=
    match s1 with
    | '-' :: r => (-1, r)
    | '+' :: r => (1, r)
    | _ => (1, s1)
  let sign := signAndRest.1
  let s2 := signAndRest.2
  let intDigits := s2.takeWhile Char.isDigit
  let afterInt := s2.dropWhile Char.isDigit
  let fracDigits :=
    match afterInt with
    | '.' :: r => r.takeWhile Char.isDigit
    | _ => []
  if intDigits = [] ∧ fracDigits = [] then none
  else some (sign * ((digitsToNat intDigits : ℚ) +
    (digitsToNat fracDigits : ℚ) / (10 : ℚ) ^ fracDigits.length))

/-- `parseNumberWithSuffix`: normalize `"2M"`, `"1.5m"`, `"500k"`; strip
commas/`m`/`k` and `parseFloat` the rest; `undefined` (here `none`) when the
parse is `NaN`. -/
def parseNumberWithSuffix (value : List Char) : Option ℚ :=
  let lower := value.map Char.toLower
  let mul : ℚ :=
    if lower.getLast? = some 'm' then 1000000
    else if lower.getLast? = some 'k' then 1000
    else 1
  let cleaned := lower.filter (fun c => !(c == ',' || c == 'm' || c == 'k'))
  match parseFloatQ cleaned with
  | none => none
  | some numeric => some (numeric * mul)

/-- `ExtractedParams` (a field is `none` when the key is absent). -/
structure ExtractedParams where
  propertyPrice : Option ℚ := none
  income : Option ℚ := none
  downPayment : Option ℚ := none
  tenure : Option ℚ := none
  monthlyRent : Option ℚ := none
  stayDuration : Option ℚ := none
deriving DecidableEq, Repr

/-- The guard `if (val && val > 0)`: a missing match, a `NaN` parse, a zero
value (falsy) or a non-positive value is dropped. -/
def posGuard (v : Option ℚ) : Option ℚ :=
  v.bind (fun q => if 0 < q then some q else none)

/-- Ample matcher fuel for a message of length `n`: no backtracking path
through the fixed extractor patterns performs more than `1000 * (n + 2)`
matcher steps. -/
def extractorFuel (n : Nat) : Nat := (n + 2) * 1000

/-- `extractParameters`. -/
def extractParameters (message : String) : ExtractedParams :=
  let text := message.data
  let fuel := extractorFuel text.length
  let priceMatch := reFind fuel amountGroup priceLookahead none text
  let incomeMatch := reFind fuel amountGroup incomeLookahead none text
  let downMatch := reFind fuel amountGroup downLookahead none text
  let rentMatch := reFind fuel amountGroup rentLookahead none text
  let tenureMatch := reFind fuel yearsGroup tenureLookahead none text
  let stayMatch := reFind fuel yearsGroup stayLookahead none text
  { propertyPrice := posGuard (priceMatch.bind parseNumberWithSuffix)
    income := posGuard (incomeMatch.bind parseNumberWithSuffix)
    downPayment := posGuard (downMatch.bind parseNumberWithSuffix)
    tenure := posGuard (tenureMatch.bind parseFloatQ)
    monthlyRent := posGuard (rentMatch.bind parseNumberWithSuffix)
    stayDuration := posGuard (stayMatch.bind parseFloatQ) }

/-! ### `app/api/chat/route.ts` — tool dispatch -/

/-- The closed scenario set `'buy-vs-rent' | 'refinance-check'`. -/
inductive Scenario where
  | buyVsRent
  | refinanceCheck
deriving DecidableEq, Repr

/-- The argument payload of a tool invocation, after JSON parsing: each
field the dispatcher ever reads, `none` when the key is absent. -/
structure ToolArgs where
  propertyPrice : Option ℚ := none
  downPayment : Option ℚ := none
  tenure : Option ℚ := none
  monthlyRent : Option ℚ := none
  stayDuration : Option ℚ := none
  currentLoanAmount : Option ℚ := none
  currentInterestRate : Option ℚ := none
  currentTenure : Option ℚ := none
  newInterestRate : Option ℚ := none
  switchingCosts : Option ℚ := none
deriving DecidableEq, Repr

/-- An absent argument flowing into arithmetic: `undefined` behaves exactly
like `NaN` in every comparison and arithmetic operation performed on it. -/
def jsArg : Option ℚ → JsNum
  | some q => JsNum.num q
  | none => JsNum.nan

/-- JavaScript truthiness of a possibly-absent JSON number (`!x` is true for
`undefined` and for `0`). -/
def truthyArg : Option ℚ → Bool
  | some q => decide (q ≠ 0)
  | none => false

/-- The `calculate_refinance` result object. `breakEvenMonths := none`
models the JSON `null` emitted when the computed value is `Infinity`. -/
structure RefinanceResult where
  currentEMI : JsNum
  newEMI : JsNum
  monthlySavings : JsNum
  breakEvenMonths : Option JsNum
  totalSavingsOverRemainingTenure : JsNum
  recommendation : String
deriving DecidableEq, Repr

/-- A tool result: either the structured `\x7b error: ... \x7d` payload or one of
the three engine results (JSON-serialized payloads are modelled by their
parsed structure). -/
inductive ToolResult where
  | error (message : String)
  | mortgage (r : MortgageCalculation)
  | buyVsRent (r : BuyVsRentAnalysis)
  | refinance (r : RefinanceResult)
deriving DecidableEq, Repr

def ToolResult.isError : ToolResult → Bool
  | .error _ => true
  | _ => false

/-- `executeToolCall`.  `calculate_mortgage` and `analyze_buy_vs_rent`
check truthiness of their required arguments; `calculate_refinance`
destructures its arguments and calls `calculateEMI` directly (absent
arguments reach the engine as `undefined`; `calculateEMI`'s default
parameter values replace an `undefined` rate or tenure). -/
def executeToolCall (toolName : String) (args : ToolArgs) (scenario : Scenario) : ToolResult :=
  if toolName = "calculate_mortgage" then
    match args.propertyPrice with
    | none => .error "propertyPrice is required and must be > 0"
    | some p =>
        if p ≤ 0 then .error "propertyPrice is required and must be > 0"
        else .mortgage (calculateMortgage
          { propertyPrice := p
            downPayment := args.downPayment
            tenure := args.tenure })
  else if toolName = "analyze_buy_vs_rent" then
    if truthyArg args.propertyPrice && truthyArg args.monthlyRent &&
        truthyArg args.stayDuration then
      match args.propertyPrice, args.monthlyRent, args.stayDuration with
      | some p, some r, some s =>
          .buyVsRent (analyzeBuyVsRent
            { propertyPrice := p
              monthlyRent := r
              downPayment := args.downPayment
              stayDuration := some s
              tenure := args.tenure })
      | _, _, _ => .error "propertyPrice, monthlyRent, and stayDuration are required"
    else .error "propertyPrice, monthlyRent, and stayDuration are required"
  else if toolName = "calculate_refinance" then
    let currentEMI := calculateEMI (jsArg args.currentLoanAmount)
      (JsNum.num (args.currentInterestRate.getD UAE_CONSTANTS.INTEREST_RATE))
      (JsNum.num (args.currentTenure.getD UAE_CONSTANTS.MAX_TENURE))
    let newEMI := calculateEMI (jsArg args.currentLoanAmount)
      (JsNum.num (args.newInterestRate.getD UAE_CONSTANTS.INTEREST_RATE))
      (JsNum.num (args.currentTenure.getD UAE_CONSTANTS.MAX_TENURE))
    let monthlySavings := jsub currentEMI newEMI
    let breakEvenMonths :=
      if jgt monthlySavings (JsNum.num 0) then jdiv (jsArg args.switchingCosts) monthlySavings
      else JsNum.posInf
    let tenureMonths := jmul (jsArg args.currentTenure) (JsNum.num 12)
    .refinance
      { currentEMI := currentEMI
        newEMI := newEMI
        monthlySavings := monthlySavings
        breakEvenMonths := if breakEvenMonths = JsNum.posInf then none else some breakEvenMonths
        totalSavingsOverRemainingTenure :=
          jsub (jmul monthlySavings tenureMonths) (jsArg args.switchingCosts)
        recommendation :=
          if jgt monthlySavings (JsNum.num 0) && jlt breakEvenMonths tenureMonths then "refinance"
          else "keep_current" }
  else .error ("Unknown tool: " ++ toolName)

/-! ### `app/api/chat/route.ts` — context-window building -/

/-- Message roles. -/
inductive Role where
  | system
  | user
  | assistant
  | tool
deriving DecidableEq, Repr

/-- `MistralToolCall`: a correlation id, a function name and an argument
payload.  The payload is a JSON string in the source; it is modelled by its
parse result, `none` standing for a string on which `JSON.parse` throws. -/
structure MistralToolCall where
  id : String
  name : String
  arguments : Option ToolArgs
deriving DecidableEq, Repr

/-- The content of a conversation turn: plain text, or the JSON
serialization of a tool result (modelled by the structured value itself). -/
inductive MsgContent where
  | text (s : String)
  | json (r : ToolResult)
deriving DecidableEq, Repr

/-- `MistralMessage`. -/
structure MistralMessage where
  role : Role
  content : MsgContent
  name : Option String := none
  tool_calls : List MistralToolCall := []
  tool_call_id : Option String := none
deriving DecidableEq, Repr

def CONTEXT_WINDOW : Nat := 10

/-- The `while` loop of `buildContextMessages`: starting from
`recent = messages.slice(idx + 1)`, repeatedly widen the trailing slice by
one turn while its first turn has the tool role and `idx >= 1` holds. -/
def walkBack (messages : List MistralMessage) : Nat → List MistralMessage → List MistralMessage
  | 0, recent => recent
  | idx + 1, recent =>
      if recent.head?.map (·.role) = some Role.tool then
        walkBack messages idx (messages.drop (idx + 1))
      else recent

/-- `buildContextMessages`. -/
def buildContextMessages (messages : List MistralMessage) : List MistralMessage :=
  if messages.length ≤ CONTEXT_WINDOW + 1 then messages
  else
    messages.take 1 ++
      walkBack messages (messages.length - CONTEXT_WINDOW - 1)
        (messages.drop (messages.length - CONTEXT_WINDOW))

/-! ### `lib/mistral.ts` — tool schemas and system prompts -/

/-- One property of a tool's JSON-schema (`type` is always `'number'`). -/
structure MistralToolProperty where
  name : String
  description : String
deriving DecidableEq, Repr

/-- `MistralTool` (the constant `type: 'function'` and
`parameters.type: 'object'` tags are omitted). -/
structure MistralTool where
  name : String
  description : String
  properties : List MistralToolProperty
  required : List String
deriving DecidableEq, Repr

/-- `getAvailableTools`. -/
def getAvailableTools (scenario : Scenario) : List MistralTool :=
  match scenario with
  | .buyVsRent =>
      [{ name := "calculate_mortgage"
         description := "Calculate mortgage details (loan amount, LTV, EMI, upfront costs). Call this whenever the user mentions a property price. Inputs: propertyPrice (required), downPayment (optional, AED), tenure (optional, years). Example: \x7b \"propertyPrice\": 1500000, \"downPayment\": 300000, \"tenure\": 25 \x7d"
         properties :=
           [{ name := "propertyPrice", description := "The price of the property in AED (required)" },
            { name := "downPayment", description := "Down payment amount in AED (optional; default minimum is 20%)" },
            { name := "tenure", description := "Loan tenure in years (optional; max 25)" }]
         required := ["propertyPrice"] },
       { name := "analyze_buy_vs_rent"
         description := "Compare buying vs renting and return a recommendation. Call this when you have propertyPrice, monthlyRent, and stayDuration. Optional: downPayment, tenure. Example: \x7b \"propertyPrice\": 1500000, \"monthlyRent\": 8000, \"stayDuration\": 5, \"downPayment\": 300000, \"tenure\": 25 \x7d"
         properties :=
           [{ name := "propertyPrice", description := "The price of the property in AED (required)" },
            { name := "monthlyRent", description := "Current monthly rent in AED (required)" },
            { name := "downPayment", description := "Down payment amount in AED (optional)" },
            { name := "stayDuration", description := "How long the user plans to stay in the UAE (years, required)" },
            { name := "tenure", description := "Loan tenure in years (optional)" }]
         required := ["propertyPrice", "monthlyRent", "stayDuration"] }]
  | .refinanceCheck =>
      [{ name := "calculate_refinance"
         description := "Calculate if refinancing is worth it by comparing current EMI vs new EMI and switching costs. Call when user provides currentLoanAmount, currentInterestRate, currentTenure, newInterestRate, switchingCosts."
         properties :=
           [{ name := "currentLoanAmount", description := "Current outstanding loan amount in AED" },
            { name := "currentInterestRate", description := "Current annual interest rate as a decimal (e.g., 0.05 for 5%, 0.045 for 4.5%)" },
            { name := "currentTenure", description := "Remaining tenure in years" },
            { name := "newInterestRate", description := "New annual interest rate being offered as a decimal (e.g., 0.04 for 4%)" },
            { name := "switchingCosts", description := "Total switching costs in AED (fees, penalties, etc.)" }]
         required := ["currentLoanAmount", "currentInterestRate", "currentTenure", "newInterestRate", "switchingCosts"] }]

/-- `getSystemPrompt`. -/
def getSystemPrompt (scenario : Scenario) : String :=
  match scenario with
  | .buyVsRent =>
      "You are a precise UAE mortgage assistant. Follow ONLY the provided primitives. No extra banking rules, no DTI, no job stability advice, no guesses.\n\nPrimitives (fixed):\n- Max LTV: 80% (min 20% down)\n- Upfront costs: 7% of property price\n- Interest: 4.5% annual\n- Max tenure: 25 years\n- Buy vs rent heuristic: stay <3 years → rent, >5 years → buy, else present both\n\nTool usage (mandatory):\n- If user provides or implies property price, rent, stay duration, down payment, or tenure, call the appropriate tool. Never compute manually, never assume.\n- Use calculate_mortgage when propertyPrice is provided (optional downPayment, tenure).\n- Use analyze_buy_vs_rent when propertyPrice, monthlyRent, stayDuration are provided (optional downPayment, tenure).\n- If parameters are missing, ask briefly for the missing ones, then call the tool.\n\nStyle:\n- No jokes, no emojis, no metaphors, no personality.\n- No markdown formatting (no bold/italics/headings/bullets) unless explicitly asked.\n- Structure every answer:\n  1) One-sentence summary.\n  2) Short, clear list of numbers/findings (plain text, concise).\n  3) One optional next step: \"Let me know if you want to adjust any value.\"\n- Be concise, direct, and factual."
  | .refinanceCheck =>
      "You are a precise UAE refinancing assistant. Use only the provided primitives. No extra banking rules, no DTI, no job stability advice, no guesses.\n\nTool usage (mandatory):\n- If user mentions loan amount, current rate, new rate, tenure, or switching costs, call calculate_refinance. Never compute manually.\n- If parameters are missing, ask briefly for the missing ones, then call the tool.\n\nStyle:\n- No jokes, no emojis, no metaphors, no personality.\n- No markdown formatting (no bold/italics/headings/bullets) unless explicitly asked.\n- Structure every answer:\n  1) One-sentence summary.\n  2) Short, clear list of numbers/findings (plain text, concise).\n  3) One optional next step: \"Let me know if you want to adjust any value.\"\n- Be concise, direct, and factual."

/-! ### `app/api/chat/route.ts` — the POST handler (orchestrator)

The handler is split into its two sequential phases: `handleTurnSetup`
models everything up to the creation of the response stream (session
lookup/creation, appending the user turn, extraction merge, tool-schema
selection), and `runTurn` models the `start` callback of the
`ReadableStream`, as a trace of emitted stream events and session-state
mutations, parameterised by the outcomes of the two provider calls. -/

/-- Session state stored in the module-level `conversationStates` map.
`extractedData` (`Record<string, any>`) is an insertion-ordered key→value
object. -/
structure ConversationState where
  messages : List MistralMessage
  scenario : Scenario
  extractedData : List (String × ℚ)
deriving DecidableEq, Repr

/-- Assign one key of a JavaScript object: overwrite in place or append. -/
def setKey : List (String × ℚ) → String → ℚ → List (String × ℚ)
  | [], k, v => [(k, v)]
  | (k0, v0) :: rest, k, v =>
      if k0 = k then (k0, v) :: rest else (k0, v0) :: setKey rest k v

/-- `Object.assign(target, source)` for numeric records. -/
def assignPairs (target source : List (String × ℚ)) : List (String × ℚ) :=
  source.foldl (fun acc kv => setKey acc kv.1 kv.2) target

/-- The key→value pairs present in an `ExtractedParams` object, in
declaration order. -/
def ExtractedParams.toPairs (p : ExtractedParams) : List (String × ℚ) :=
  ([("propertyPrice", p.propertyPrice), ("income", p.income),
    ("downPayment", p.downPayment), ("tenure", p.tenure),
    ("monthlyRent", p.monthlyRent), ("stayDuration", p.stayDuration)]).filterMap
    (fun kv => kv.2.map (fun v => (kv.1, v)))

/-- The key→value pairs present in a tool-argument payload. -/
def ToolArgs.toPairs (a : ToolArgs) : List (String × ℚ) :=
  ([("propertyPrice", a.propertyPrice), ("downPayment", a.downPayment),
    ("tenure", a.tenure), ("monthlyRent", a.monthlyRent),
    ("stayDuration", a.stayDuration), ("currentLoanAmount", a.currentLoanAmount),
    ("currentInterestRate", a.currentInterestRate), ("currentTenure", a.currentTenure),
    ("newInterestRate", a.newInterestRate), ("switchingCosts", a.switchingCosts)]).filterMap
    (fun kv => kv.2.map (fun v => (kv.1, v)))

/-- The parsed request body `\x7b message, sessionId, scenario \x7d`. -/
structure ChatRequest where
  message : String
  sessionId : String
  scenario : Option Scenario
deriving DecidableEq, Repr

/-- What the pre-stream phase of `POST` produces. -/
structure ChatTurnSetup where
  store : String → Option ConversationState
  tools : List MistralTool
  dispatchScenario : Scenario
  state : ConversationState

/-- The pre-stream phase of `POST`: reject a missing `sessionId`/`scenario`
(an empty `sessionId` string is falsy); get or create the session; append
the user turn; merge the extractor's output into `extractedData`; select
the tool schemas.  (The `MISTRAL_API_KEY` environment check is outside the
model.)  Both the tool schemas and the scenario later passed to
`executeToolCall` come from the *request's* `scenario` variable. -/
def handleTurnSetup (store : String → Option ConversationState) (req : ChatRequest) :
    Except String ChatTurnSetup :=
  if req.sessionId = "" then .error "Missing sessionId or scenario"
  else
    match req.scenario with
    | none => .error "Missing sessionId or scenario"
    | some scenario =>
        let state0 : ConversationState :=
          match store req.sessionId with
          | some st => st
          | none =>
              { messages := [{ role := .system, content := .text (getSystemPrompt scenario) }]
                scenario := scenario
                extractedData := [] }
        let state1 :=
          { state0 with
              messages := state0.messages ++
                [({ role := .user, content := .text req.message } : MistralMessage)] }
        let state2 :=
          { state1 with
              extractedData :=
                assignPairs state1.extractedData (extractParameters req.message).toPairs }
        .ok
          { store := fun k => if k = req.sessionId then some state2 else store k
            tools := getAvailableTools scenario
            dispatchScenario := scenario
            state := state2 }

/-- Outcome of the round-1 (non-streaming) provider call:
`response msg` carries `response.choices[0]?.message`. -/
inductive Round1Result where
  | threw
  | stream
  | response (message : Option (Option String × List MistralToolCall))
deriving DecidableEq, Repr

/-- Outcome of the round-2 (streaming) provider call after tool execution.
`threw` is a rejection of the `await callMistralAPI(...)` itself, which the
inner try/catch turns into the fallback fragment; `streamOk chunks` is a
returned stream whose iteration completes after yielding `chunks`;
`streamFailed chunks` is a returned stream that yields `chunks` and then
rejects *during* the `for await` iteration — that loop lies outside the
inner try/catch, so the rejection escapes to the outer catch of the
`start` callback; `nonStream` is the non-streaming fallback shape. -/
inductive Round2Result where
  | threw
  | streamOk (chunks : List String)
  | streamFailed (chunks : List String)
  | nonStream (content : Option String)
deriving DecidableEq, Repr

/-- One server-sent event written to the response stream. -/
inductive StreamEvent where
  | fragment (content : String) (toolUsed : Option String)
  | done
deriving DecidableEq, Repr

/-- One observable action of the `start` callback, in program order. -/
inductive TurnAction where
  | emit (e : StreamEvent)
  | append (m : MistralMessage)
  | mergeArgs (args : ToolArgs)
  | streamError  -- `controller.error(...)`: the stream is aborted with no end marker
deriving DecidableEq, Repr

def fallbackInitial : String :=
  "I'm having trouble reaching the assistant. Please try again in a moment."

def fallbackFinal : String :=
  "The assistant hit a snag while calculating. Please rephrase or try again."

def chunkifyGo : Nat → List Char → List String
  | 0, _ => []
  | _, [] => []
  | f + 1, l => String.mk (l.take 10) :: chunkifyGo f (l.drop 10)

/-- The character-by-character streaming loop: slices of 10 characters. -/
def chunkify (content : String) : List String :=
  chunkifyGo content.data.length content.data

/-- The per-invocation body of the tool-execution loop: on a parseable
payload, execute the tool, append the correlated tool turn and merge the
raw arguments; on a payload `JSON.parse` throws on, append the error tool
turn. -/
def toolCallActions (scenario : Scenario) (tc : MistralToolCall) : List TurnAction :=
  match tc.arguments with
  | some args =>
      [.append { role := .tool, content := .json (executeToolCall tc.name args scenario),
                 tool_call_id := some tc.id, name := some tc.name },
       .mergeArgs args]
  | none =>
      [.append { role := .tool, content := .json (.error "Tool execution failed"),
                 tool_call_id := some tc.id, name := some tc.name }]

/-- Final value of the `lastToolUsed` variable: the name of the last
invocation whose payload parsed. -/
def lastToolUsed (tcs : List MistralToolCall) : Option String :=
  ((tcs.filter (fun tc => tc.arguments.isSome)).getLast?).map (·.name)

/-- The no-tool-call narrative path: stream the round-1 content in slices,
append the final assistant turn, emit the end marker. -/
def noToolCallActions (content : Option String) : List TurnAction :=
  let c := content.getD ""
  (chunkify c).map (fun ch => TurnAction.emit (.fragment ch none))
    ++ [.append { role := .assistant, content := .text c }, .emit .done]

/-- The `start` callback of the response `ReadableStream`, as the trace of
its observable actions, given the outcomes of the two provider calls. -/
def runTurn (scenario : Scenario) (round1 : Round1Result) (round2 : Round2Result) :
    List TurnAction :=
  match round1 with
  | .threw => [.emit (.fragment fallbackInitial none), .emit .done]
  | .stream => [.streamError]
  | .response assistantMessage =>
      match assistantMessage with
      | none => noToolCallActions none
      | some (content, toolCalls) =>
          if toolCalls.isEmpty then noToolCallActions content
          else
            TurnAction.append
                { role := .assistant, content := .text (content.getD ""),
                  tool_calls := toolCalls }
              :: (toolCalls.flatMap (toolCallActions scenario)
                ++ match round2 with
                   | .threw => [.emit (.fragment fallbackFinal none), .emit .done]
                   | .streamOk chunks =>
                       (chunks.map fun c =>
                         TurnAction.emit (.fragment c (lastToolUsed toolCalls)))
                         ++ [.append { role := .assistant,
                                       content := .text (String.join chunks) },
                             .emit .done]
                   | .streamFailed chunks =>
                       (chunks.map fun c =>
                         TurnAction.emit (.fragment c (lastToolUsed toolCalls)))
                         ++ [.streamError]
                   | .nonStream c =>
                       [.emit (.fragment (c.getD "") (lastToolUsed toolCalls)),
                        .append { role := .assistant, content := .text (c.getD "") },
                        .emit .done])

/-- The messages a trace appends to the session, in order. -/
def appendedMessages (tr : List TurnAction) : List MistralMessage :=
  tr.filterMap (fun a => match a with | .append m => some m | _ => none)

/-- The final assistant turns a trace appends: plain assistant messages
(no tool invocations), carrying the accumulated narrative. -/
def finalAssistantAppends (tr : List TurnAction) : List MistralMessage :=
  (appendedMessages tr).filter
    (fun m => m.role = Role.assistant && m.tool_calls.isEmpty)

/-- The contents of all fragments a trace emits, in order. -/
def emittedFragments (tr : List TurnAction) : List String :=
  tr.filterMap (fun a =>
    match a with | .emit (.fragment c _) => some c | _ => none)

/-! ### Claim theorems -/

/-- Claim C1: for every propertyPrice > 0 and every supplied downPayment
(including an absent or zero one), `calculateMortgage` returns a result
whose loan-to-value never exceeds the fixed maximum 0.80; the resolved down
payment is defaulted to and floored at 20% of the property price; loan
amount = price minus the resolved down payment; when the supplied down
payment would imply an LTV above the cap the returned ltv equals exactly
0.80; and the resolved tenure is capped at 25 years. -/
theorem C1_calculateMortgage_ltv_cap (price : ℚ) (hp : 0 < price)
    (dp tn rt : Option ℚ) :
    (calculateMortgage
      { propertyPrice := price, downPayment := dp, tenure := tn,
        interestRate := rt }).ltv ≤ UAE_CONSTANTS.MAX_LTV ∧
    (calculateMortgage
      { propertyPrice := price, downPayment := dp, tenure := tn,
        interestRate := rt }).tenure ≤ UAE_CONSTANTS.MAX_TENURE ∧
    calculateMinDownPayment price ≤ (calculateMortgage
      { propertyPrice := price, downPayment := dp, tenure := tn,
        interestRate := rt }).downPayment ∧
    ((dp = none ∨ dp = some 0) → (calculateMortgage
      { propertyPrice := price, downPayment := dp, tenure := tn,
        interestRate := rt }).downPayment = calculateMinDownPayment price) ∧
    (calculateMortgage
      { propertyPrice := price, downPayment := dp, tenure := tn,
        interestRate := rt }).loanAmount = price - (calculateMortgage
      { propertyPrice := price, downPayment := dp, tenure := tn,
        interestRate := rt }).downPayment ∧
    (∀ d, dp = some d → d < calculateMinDownPayment price →
      (calculateMortgage
        { propertyPrice := price, downPayment := dp, tenure := tn,
          interestRate := rt }).ltv = UAE_CONSTANTS.MAX_LTV) := by
  have hne : price ≠ 0 := ne_of_gt hp
  have hnle : ¬ price ≤ 0 := not_le.mpr hp
  simp only [calculateMortgage, calculateLTV, calculateMinDownPayment,
    calculateMaxLoanAmount, UAE_CONSTANTS.MAX_LTV, UAE_CONSTANTS.MIN_DOWN_PAYMENT,
    UAE_CONSTANTS.MAX_TENURE]
  rcases dp with _ | d
  · simp only [Option.getD, if_neg hnle]
    split_ifs with h1 h2
    any_goals (exfalso; linarith)
    exact ⟨by rw [div_le_iff₀ hp]; linarith, inf_le_right, le_refl _, fun _ => rfl, rfl,
      fun d h => by cases h⟩
  · simp only [Option.getD, if_neg hnle]
    split_ifs with h0
    any_goals (exfalso; linarith)
    · exact ⟨by rw [div_le_iff₀ hp]; linarith, inf_le_right, le_refl _, fun _ => rfl, rfl,
        fun d' h hlt => by rw [div_eq_iff hne]; ring⟩
    · refine ⟨by rw [div_le_iff₀ hp]; linarith, inf_le_right, le_refl _, ?_, rfl,
        fun d' h hlt => by rw [div_eq_iff hne]; ring⟩
      rintro (h | h)
      · cases h
      · injection h with h; exact absurd h h0
    · rename_i hge hnc
      refine ⟨by rw [div_le_iff₀ hp]; linarith, inf_le_right, by linarith, ?_, rfl, ?_⟩
      · rintro (h | h)
        · cases h
        · injection h with h; exact absurd h h0
      · intro d' h hlt
        injection h with h
        subst h
        exact absurd hlt hge

/-- Witness for claim C1 at the concrete scenario with price 1,500,000 and
down payment 300,000. -/
theorem C1_calculateMortgage_ltv_cap_witness :
    0 < (1500000 : ℚ) ∧
    (calculateMortgage
      { propertyPrice := 1500000, downPayment := some 300000,
        tenure := some 25, interestRate := none }).ltv ≤ UAE_CONSTANTS.MAX_LTV :=
  ⟨by norm_num,
   (C1_calculateMortgage_ltv_cap 1500000 (by norm_num) (some 300000) (some 25) none).1⟩

/-- Claim C3, counterexample: at loanAmount 100, rate 0, tenure 3 the
zero-rate branch of `calculateEMI` returns the exact division
100/36 = 25/9, which is not an integer multiple of 0.01, refuting the
claim that in every case the returned result is rounded to 2 decimal
places. -/
theorem C3_counterexample :
    calculateEMI (JsNum.num 100) (JsNum.num 0) (JsNum.num 3) = JsNum.num (25 / 9) ∧
    ¬ ∃ k : ℤ, (25 / 9 : ℚ) = (k : ℚ) / 100 := by
  constructor
  · norm_num [calculateEMI, jle, jlt, jeqS, jdiv, jmul]
  · rintro ⟨k, hk⟩
    have h9 : (2500 : ℚ) = 9 * (k : ℚ) := by field_simp at hk; linarith
    have h9' : (2500 : ℤ) = 9 * k := by exact_mod_cast h9
    omega

/-- Claim C3, amended: `calculateEMI` returns 0 when loanAmount ≤ 0,
tenureYears ≤ 0 or annualRate < 0; when annualRate = 0 and the guards pass
it returns exactly loanAmount / (tenureYears × 12), without rounding; only
the positive-rate branch result is rounded to 2 decimal places, i.e. is an
integer multiple of 0.01 (stated for integral month counts, where the
amortization power is exactly representable in the rational model). -/
theorem C3_calculateEMI_amended (l r t : ℚ) :
    ((l ≤ 0 ∨ t ≤ 0 ∨ r < 0) →
      calculateEMI (JsNum.num l) (JsNum.num r) (JsNum.num t) = JsNum.num 0) ∧
    (0 < l → 0 < t → r = 0 →
      calculateEMI (JsNum.num l) (JsNum.num r) (JsNum.num t) = JsNum.num (l / (t * 12))) ∧
    (0 < l → 0 < t → 0 < r → (t * 12).den = 1 →
      ∃ k : ℤ, calculateEMI (JsNum.num l) (JsNum.num r) (JsNum.num t)
        = JsNum.num ((k : ℚ) / 100)) := by
  refine ⟨?_, ?_, ?_⟩
  · rintro (h | h | h)
    · simp [calculateEMI, jle, h]
    · simp [calculateEMI, jle, h]
    · simp [calculateEMI, jle, jlt, h]
  · intro hl ht hr
    subst hr
    have h1 : jle (JsNum.num l) (JsNum.num 0) = false := by simp [jle]; linarith
    have h2 : jle (JsNum.num t) (JsNum.num 0) = false := by simp [jle]; linarith
    have ht12 : t * 12 ≠ 0 := by positivity
    simp [calculateEMI, h1, h2, jlt, jdiv, jmul, jeqS, ht12]
  · intro hl ht hr hden
    have h12 : (12:ℚ) ≠ 0 := by norm_num
    have h100 : (100:ℚ) ≠ 0 := by norm_num
    have hT : t * 12 ≠ 0 := by positivity
    have hb : (1:ℚ) < 1 + r / 12 := by
      have h : 0 < r / 12 := by positivity
      linarith
    have hnum : 0 < (t * 12).num := Rat.num_pos.mpr (by positivity)
    have hntz : (t * 12).num.toNat ≠ 0 := by omega
    have hpow : 1 < (1 + r / 12) ^ (t * 12).num.toNat := one_lt_pow₀ hb hntz
    have hpden : (1 + r / 12) ^ (t * 12).num.toNat - 1 ≠ 0 := by
      intro h; rw [sub_eq_zero] at h; rw [h] at hpow; exact lt_irrefl _ hpow
    have hr12 : r / 12 ≠ 0 := by positivity
    have hA : jle (JsNum.num l) (JsNum.num 0) = false := by simp [jle]; linarith
    have hB : jle (JsNum.num t) (JsNum.num 0) = false := by simp [jle]; linarith
    have hC : jlt (JsNum.num r) (JsNum.num 0) = false := by simp [jlt]; linarith
    refine ⟨⌊l * (r / 12) * (1 + r / 12) ^ (t * 12).num.toNat /
        ((1 + r / 12) ^ (t * 12).num.toNat - 1) * 100 + 2⁻¹⌋, ?_⟩
    simp [calculateEMI, hA, hB, hC, jdiv, jmul, jadd, jsub, jpow, jround, jeqS,
      h12, hT, hden, hr12, hnum, hpden, h100]

/-- Witness for claim C3, instantiating each conjunct of the amended
theorem at concrete inputs. -/
theorem C3_calculateEMI_amended_witness :
    calculateEMI (JsNum.num (-5)) (JsNum.num 1) (JsNum.num 10) = JsNum.num 0 ∧
    calculateEMI (JsNum.num 100) (JsNum.num 0) (JsNum.num 3) = JsNum.num (100 / (3 * 12)) ∧
    ∃ k : ℤ, calculateEMI (JsNum.num 100) (JsNum.num 12) (JsNum.num 1)
      = JsNum.num ((k : ℚ) / 100) :=
  ⟨(C3_calculateEMI_amended (-5) 1 10).1 (Or.inl (by norm_num)),
   (C3_calculateEMI_amended 100 0 3).2.1 (by norm_num) (by norm_num) rfl,
   (C3_calculateEMI_amended 100 12 1).2.2 (by norm_num) (by norm_num) (by norm_num)
     (by norm_num)⟩

/-- Claim C9: `analyzeBuyVsRent` defaults an omitted stayDuration to 5 and
its classification thresholds are strict: stayDuration 3, 4, 5 and the
omitted default all yield recommendation neutral; rent exactly when
stayDuration < 3; buy exactly when stayDuration > 5 — for every monetary
input. -/
theorem C9_analyzeBuyVsRent_thresholds (price rent : ℚ) (dp tn rt : Option ℚ) :
    (analyzeBuyVsRent
      { propertyPrice := price, monthlyRent := rent, downPayment := dp,
        tenure := tn, stayDuration := none, interestRate := rt }).stayDuration = 5 ∧
    (analyzeBuyVsRent
      { propertyPrice := price, monthlyRent := rent, downPayment := dp,
        tenure := tn, stayDuration := none,
        interestRate := rt }).recommendation = BVRRecommendation.neutral ∧
    (analyzeBuyVsRent
      { propertyPrice := price, monthlyRent := rent, downPayment := dp,
        tenure := tn, stayDuration := some 3,
        interestRate := rt }).recommendation = BVRRecommendation.neutral ∧
    (analyzeBuyVsRent
      { propertyPrice := price, monthlyRent := rent, downPayment := dp,
        tenure := tn, stayDuration := some 4,
        interestRate := rt }).recommendation = BVRRecommendation.neutral ∧
    (analyzeBuyVsRent
      { propertyPrice := price, monthlyRent := rent, downPayment := dp,
        tenure := tn, stayDuration := some 5,
        interestRate := rt }).recommendation = BVRRecommendation.neutral ∧
    (∀ s : ℚ, ((analyzeBuyVsRent
      { propertyPrice := price, monthlyRent := rent, downPayment := dp,
        tenure := tn, stayDuration := some s,
        interestRate := rt }).recommendation = BVRRecommendation.rent ↔ s < 3)) ∧
    (∀ s : ℚ, ((analyzeBuyVsRent
      { propertyPrice := price, monthlyRent := rent, downPayment := dp,
        tenure := tn, stayDuration := some s,
        interestRate := rt }).recommendation = BVRRecommendation.buy ↔ 5 < s)) := by
  refine ⟨by norm_num [analyzeBuyVsRent], by norm_num [analyzeBuyVsRent],
    by norm_num [analyzeBuyVsRent], by norm_num [analyzeBuyVsRent],
    by norm_num [analyzeBuyVsRent], ?_, ?_⟩
  · intro s
    simp only [analyzeBuyVsRent, Option.getD]
    split_ifs with h1 h2 <;> simp_all
  · intro s
    simp only [analyzeBuyVsRent, Option.getD]
    split_ifs with h1 h2 <;> simp_all
    all_goals linarith

/-- Claim C2, counterexample: a `calculate_refinance` invocation with every
required argument missing does not return a structured error result — the
dispatcher performs no presence validation for this tool and invokes the
engine, refuting the claim for this tool. -/
theorem C2_counterexample :
    (executeToolCall "calculate_refinance" {} Scenario.refinanceCheck).isError = false := by
  rfl

/-- Claim C2, amended: the dispatcher validates the required arguments of
`calculate_mortgage` (propertyPrice present and > 0) and of
`analyze_buy_vs_rent` (propertyPrice, monthlyRent, stayDuration truthy),
returning a structured error naming the fields without invoking the
engine; an unrecognized toolName yields the structured unknown-tool error;
but `calculate_refinance` performs no validation and always invokes the
engine, returning a refinance result even when every required argument is
missing.  The dispatcher is a total function: no input propagates an
exception. -/
theorem C2_executeToolCall_validation :
    (∀ (args : ToolArgs) (s : Scenario), args.propertyPrice = none →
      executeToolCall "calculate_mortgage" args s
        = ToolResult.error "propertyPrice is required and must be > 0") ∧
    (∀ (args : ToolArgs) (s : Scenario) (p : ℚ), args.propertyPrice = some p → p ≤ 0 →
      executeToolCall "calculate_mortgage" args s
        = ToolResult.error "propertyPrice is required and must be > 0") ∧
    (∀ (args : ToolArgs) (s : Scenario),
      args.propertyPrice = none ∨ args.monthlyRent = none ∨ args.stayDuration = none →
      executeToolCall "analyze_buy_vs_rent" args s
        = ToolResult.error "propertyPrice, monthlyRent, and stayDuration are required") ∧
    (∀ (name : String) (args : ToolArgs) (s : Scenario),
      name ≠ "calculate_mortgage" → name ≠ "analyze_buy_vs_rent" →
      name ≠ "calculate_refinance" →
      executeToolCall name args s = ToolResult.error ("Unknown tool: " ++ name)) ∧
    (∀ (args : ToolArgs) (s : Scenario),
      ∃ r, executeToolCall "calculate_refinance" args s = ToolResult.refinance r) := by
  refine ⟨?_, ?_, ?_, ?_, ?_⟩
  · intro args s h
    simp [executeToolCall, h]
  · intro args s p h hp
    simp [executeToolCall, h, hp, not_lt.mpr hp]
  · intro args s h
    rcases h with h | h | h <;> simp [executeToolCall, h, truthyArg]
  · intro name args s h1 h2 h3
    simp [executeToolCall, h1, h2, h3]
  · intro args s
    exact ⟨_, rfl⟩

theorem C2_executeToolCall_validation_witness :
    executeToolCall "calculate_mortgage" {} Scenario.buyVsRent
      = ToolResult.error "propertyPrice is required and must be > 0" ∧
    executeToolCall "calculate_mortgage" { propertyPrice := some (-1) } Scenario.buyVsRent
      = ToolResult.error "propertyPrice is required and must be > 0" ∧
    executeToolCall "analyze_buy_vs_rent" { propertyPrice := some 1500000 } Scenario.buyVsRent
      = ToolResult.error "propertyPrice, monthlyRent, and stayDuration are required" ∧
    executeToolCall "frobnicate" {} Scenario.buyVsRent
      = ToolResult.error ("Unknown tool: " ++ "frobnicate") ∧
    ∃ r, executeToolCall "calculate_refinance" {} Scenario.refinanceCheck
      = ToolResult.refinance r :=
  ⟨C2_executeToolCall_validation.1 {} Scenario.buyVsRent rfl,
   C2_executeToolCall_validation.2.1 { propertyPrice := some (-1) } Scenario.buyVsRent
     (-1) rfl (by norm_num),
   C2_executeToolCall_validation.2.2.1 { propertyPrice := some 1500000 } Scenario.buyVsRent
     (Or.inr (Or.inl rfl)),
   C2_executeToolCall_validation.2.2.2.1 "frobnicate" {} Scenario.buyVsRent
     (by decide) (by decide) (by decide),
   C2_executeToolCall_validation.2.2.2.2 {} Scenario.refinanceCheck⟩


/-- Claim C4: for every `calculate_refinance` invocation with numeric
arguments, both EMIs are computed over the same loan amount and the same
remaining tenure; monthlySavings = currentEMI − newEMI; a reported
breakEvenMonths is never a numeric infinity; when the computed
monthlySavings is a finite number sv: if sv ≤ 0 the result reports
no-break-even (null) and recommends keeping the current loan, and if
sv > 0 then breakEvenMonths = switchingCosts / sv and the recommendation
is refinance exactly when that break-even is below the tenure in
months. -/
theorem C4_calculate_refinance_semantics (cl cr ct nr sc : ℚ) (s : Scenario) :
    ∃ res, executeToolCall "calculate_refinance"
        { currentLoanAmount := some cl, currentInterestRate := some cr,
          currentTenure := some ct, newInterestRate := some nr,
          switchingCosts := some sc } s = ToolResult.refinance res ∧
      res.currentEMI = calculateEMI (JsNum.num cl) (JsNum.num cr) (JsNum.num ct) ∧
      res.newEMI = calculateEMI (JsNum.num cl) (JsNum.num nr) (JsNum.num ct) ∧
      res.monthlySavings = jsub res.currentEMI res.newEMI ∧
      (∀ b, res.breakEvenMonths = some b → b ≠ JsNum.posInf ∧ b ≠ JsNum.negInf) ∧
      (∀ sv : ℚ, res.monthlySavings = JsNum.num sv →
        (sv ≤ 0 → res.breakEvenMonths = none ∧ res.recommendation = "keep_current") ∧
        (0 < sv →
          res.breakEvenMonths = some (JsNum.num (sc / sv)) ∧
          (res.recommendation = "refinance" ↔ sc / sv < ct * 12))) := by
  refine ⟨_, rfl, rfl, rfl, rfl, ?_, ?_⟩
  · intro b hb
    simp only [jsArg, Option.getD] at hb ⊢
    set ms := jsub (calculateEMI (JsNum.num cl) (JsNum.num cr) (JsNum.num ct))
      (calculateEMI (JsNum.num cl) (JsNum.num nr) (JsNum.num ct)) with hms
    by_cases hg : jgt ms (JsNum.num 0) = true
    · cases hmsv : ms with
      | num sv =>
          rw [hmsv] at hg hb
          have hsv : 0 < sv := by simpa [jgt, jlt] using hg
          simp only [hg, if_true, jdiv, if_neg (ne_of_gt hsv)] at hb
          rw [if_neg (show ¬ (JsNum.num (sc / sv) = JsNum.posInf) by
            intro hx; cases hx)] at hb
          injection hb with hb
          subst hb
          constructor
          · intro hh; cases hh
          · intro hh; cases hh
      | posInf =>
          rw [hmsv] at hg hb
          simp only [hg, if_true, jdiv] at hb
          rw [if_neg (show ¬ (JsNum.num 0 = JsNum.posInf) by intro hx; cases hx)] at hb
          injection hb with hb
          subst hb
          constructor
          · intro hh; cases hh
          · intro hh; cases hh
      | negInf => rw [hmsv] at hg; simp [jgt, jlt] at hg
      | nan => rw [hmsv] at hg; simp [jgt, jlt] at hg
    · rw [if_neg hg, if_pos rfl] at hb
      cases hb
  · intro sv hsv
    simp only [jsArg, Option.getD] at hsv ⊢
    rw [hsv]
    constructor
    · intro hle
      have hg : jgt (JsNum.num sv) (JsNum.num 0) = false := by
        simp [jgt, jlt]; exact hle
      exact ⟨by simp [hg], by simp [hg]⟩
    · intro hpos
      have hg : jgt (JsNum.num sv) (JsNum.num 0) = true := by
        simp [jgt, jlt]; exact hpos
      have hsvne : sv ≠ 0 := ne_of_gt hpos
      refine ⟨by simp [hg, jdiv, hsvne], ?_⟩
      by_cases hc : sc / sv < ct * 12 <;> simp [hg, jdiv, hsvne, jmul, jlt, hc]

/-- Witness for claim C4 at a concrete zero-savings invocation. -/
theorem C4_calculate_refinance_semantics_witness :
    ∃ res, executeToolCall "calculate_refinance"
        { currentLoanAmount := some 1200, currentInterestRate := some 0,
          currentTenure := some 10, newInterestRate := some 0,
          switchingCosts := some 100 } Scenario.refinanceCheck
        = ToolResult.refinance res ∧
      res.breakEvenMonths = none ∧ res.recommendation = "keep_current" := by
  obtain ⟨res, hr, hce, hne, hms, hinf, hsv⟩ :=
    C4_calculate_refinance_semantics 1200 0 10 0 100 Scenario.refinanceCheck
  have hemi : calculateEMI (JsNum.num 1200) (JsNum.num 0) (JsNum.num 10)
      = JsNum.num 10 := by
    norm_num [calculateEMI, jle, jlt, jeqS, jdiv, jmul]
  have hms0 : res.monthlySavings = JsNum.num 0 := by
    rw [hms, hce, hne, hemi]; simp [jsub]
  obtain ⟨hz, _⟩ := hsv 0 hms0
  obtain ⟨hb, hk⟩ := hz le_rfl
  exact ⟨res, hr, hb, hk⟩


/-- The `while` loop of `buildContextMessages` always lands on a trailing
slice `messages.drop j` with `1 ≤ j ≤ idx + 1` whose first turn is not a
tool turn (given that the turn after the system turn is not a tool turn). -/
theorem walkBack_spec (msgs : List MistralMessage)
    (h2 : (msgs.drop 1).head?.map (·.role) ≠ some Role.tool) :
    ∀ idx r, r = msgs.drop (idx + 1) → ∃ j, 1 ≤ j ∧ j ≤ idx + 1 ∧
      walkBack msgs idx r = msgs.drop j ∧
      (msgs.drop j).head?.map (·.role) ≠ some Role.tool := by
  intro idx
  induction idx with
  | zero =>
      intro r hr
      subst hr
      exact ⟨1, le_refl 1, by omega, rfl, h2⟩
  | succ i ih =>
      intro r hr
      subst hr
      by_cases hc : ((msgs.drop (i + 1 + 1)).head?.map (·.role)) = some Role.tool
      · have hstep : walkBack msgs (i + 1) (msgs.drop (i + 1 + 1))
            = walkBack msgs i (msgs.drop (i + 1)) := by
          simp only [walkBack]
          rw [if_pos hc]
        obtain ⟨j, hj1, hj2, hj3, hj4⟩ := ih (msgs.drop (i + 1)) rfl
        exact ⟨j, hj1, by omega, by rw [hstep]; exact hj3, hj4⟩
      · refine ⟨i + 1 + 1, by omega, by omega, ?_, hc⟩
        simp only [walkBack]
        rw [if_neg hc]

/-- Claim C5: for every transcript whose first turn is role system and
whose second turn is not role tool, `buildContextMessages` returns the
transcript unchanged when its length is at most window size + 1 (11);
otherwise the window is turn 0 followed by a contiguous trailing slice
that starts no later than the most recent 10 turns (so it contains at
least them), whose first turn is never role tool, and in which no turn of
the transcript appears twice (a Nodup transcript yields a Nodup
window). -/
theorem C5_buildContextMessages_window (msgs : List MistralMessage)
    (h1 : msgs.head?.map (·.role) = some Role.system)
    (h2 : (msgs.drop 1).head?.map (·.role) ≠ some Role.tool) :
    (msgs.length ≤ CONTEXT_WINDOW + 1 → buildContextMessages msgs = msgs) ∧
    (CONTEXT_WINDOW + 1 < msgs.length →
      ∃ j, 1 ≤ j ∧ j ≤ msgs.length - CONTEXT_WINDOW ∧
        buildContextMessages msgs = msgs.take 1 ++ msgs.drop j ∧
        (buildContextMessages msgs).head?.map (·.role) = some Role.system ∧
        (msgs.drop j).head?.map (·.role) ≠ some Role.tool ∧
        (msgs.drop (msgs.length - CONTEXT_WINDOW)).IsSuffix (msgs.drop j) ∧
        (msgs.Nodup → (buildContextMessages msgs).Nodup)) := by
  constructor
  · intro hle
    simp [buildContextMessages, hle]
  · intro hgt
    simp only [CONTEXT_WINDOW] at hgt ⊢
    have hnle : ¬ msgs.length ≤ 10 + 1 := by omega
    have harg : msgs.drop (msgs.length - 10) = msgs.drop ((msgs.length - 10 - 1) + 1) := by
      congr 1
      omega
    obtain ⟨j, hj1, hj2, hj3, hj4⟩ :=
      walkBack_spec msgs h2 (msgs.length - 10 - 1) (msgs.drop (msgs.length - 10)) harg
    have hbc : buildContextMessages msgs = msgs.take 1 ++ msgs.drop j := by
      simp only [buildContextMessages, CONTEXT_WINDOW, if_neg hnle]
      rw [hj3]
    refine ⟨j, hj1, by omega, hbc, ?_, hj4, ?_, ?_⟩
    · rw [hbc]
      rcases msgs with _ | ⟨a, l⟩
      · simp at hgt
      · simp at h1
        simp [List.take_succ_cons, h1]
    · have hd : msgs.drop (msgs.length - 10) = (msgs.drop j).drop (msgs.length - 10 - j) := by
        rw [List.drop_drop]
        congr 1
        omega
      rw [hd]
      exact List.drop_suffix _ _
    · intro hnd
      rw [hbc]
      have h1j : msgs.take 1 = (msgs.take j).take 1 := by
        rw [List.take_take]
        congr 1
        omega
      have hsub : List.Sublist (msgs.take 1 ++ msgs.drop j) (msgs.take j ++ msgs.drop j) := by
        rw [h1j]
        exact List.Sublist.append (List.take_sublist 1 (msgs.take j)) (List.Sublist.refl _)
      rw [List.take_append_drop] at hsub
      exact hnd.sublist hsub

/-- Witness for claim C5 on a concrete 12-turn transcript whose trailing
slice initially starts with a tool turn. -/
theorem C5_buildContextMessages_window_witness :
    (let msgs : List MistralMessage :=
      [⟨Role.system, MsgContent.text "", none, [], none⟩,
       ⟨Role.user, MsgContent.text "", none, [], none⟩,
       ⟨Role.tool, MsgContent.text "", none, [], none⟩,
       ⟨Role.assistant, MsgContent.text "", none, [], none⟩,
       ⟨Role.user, MsgContent.text "", none, [], none⟩,
       ⟨Role.assistant, MsgContent.text "", none, [], none⟩,
       ⟨Role.user, MsgContent.text "", none, [], none⟩,
       ⟨Role.assistant, MsgContent.text "", none, [], none⟩,
       ⟨Role.user, MsgContent.text "", none, [], none⟩,
       ⟨Role.assistant, MsgContent.text "", none, [], none⟩,
       ⟨Role.user, MsgContent.text "", none, [], none⟩,
       ⟨Role.assistant, MsgContent.text "", none, [], none⟩]
     CONTEXT_WINDOW + 1 < msgs.length ∧
     ∃ j, 1 ≤ j ∧ j ≤ msgs.length - CONTEXT_WINDOW ∧
       buildContextMessages msgs = msgs.take 1 ++ msgs.drop j ∧
       (buildContextMessages msgs).head?.map (·.role) = some Role.system ∧
       (msgs.drop j).head?.map (·.role) ≠ some Role.tool ∧
       (msgs.drop (msgs.length - CONTEXT_WINDOW)).IsSuffix (msgs.drop j) ∧
       (msgs.Nodup → (buildContextMessages msgs).Nodup)) :=
  ⟨by decide,
   (C5_buildContextMessages_window _ (by decide) (by decide)).2 (by decide)⟩

/-- Claim C6, counterexample: for an existing session stored with tag
refinance-check, a turn whose caller states buy-vs-rent receives the
buy-vs-rent tool schemas and dispatch scenario — the stored tag is not
authoritative, refuting the claim. -/
theorem C6_counterexample :
    (let st0 : ConversationState :=
      { messages :=
          [⟨Role.system, MsgContent.text (getSystemPrompt Scenario.refinanceCheck),
            none, [], none⟩],
        scenario := Scenario.refinanceCheck, extractedData := [] }
     let store : String → Option ConversationState :=
       fun k => if k = "s1" then some st0 else none
     ∃ setup, handleTurnSetup store
         { message := "hello", sessionId := "s1", scenario := some Scenario.buyVsRent }
         = Except.ok setup ∧
       setup.dispatchScenario = Scenario.buyVsRent ∧
       setup.dispatchScenario ≠ st0.scenario ∧
       setup.tools = getAvailableTools Scenario.buyVsRent ∧
       setup.tools ≠ getAvailableTools st0.scenario) := by
  exact ⟨_, rfl, rfl, (by decide), rfl, (by decide)⟩

/-- Claim C6, amended: the stored scenario tag of an existing session is
never mutated by a turn (the turn only appends messages and merges
extracted data), but it is not authoritative: both the tool schemas
offered to the provider and the scenarioTag passed to tool dispatch are
taken from the caller's stated scenario, even when the two differ. -/
theorem C6_scenario_flow (store : String → Option ConversationState) (req : ChatRequest)
    (st : ConversationState) (scen : Scenario)
    (hsid : ¬ req.sessionId = "") (hscen : req.scenario = some scen)
    (hst : store req.sessionId = some st) :
    ∃ setup, handleTurnSetup store req = Except.ok setup ∧
      setup.dispatchScenario = scen ∧
      setup.tools = getAvailableTools scen ∧
      (∀ st', setup.store req.sessionId = some st' → st'.scenario = st.scenario) ∧
      (∀ k, k ≠ req.sessionId → setup.store k = store k) := by
  rcases req with ⟨msg, sid, osc⟩
  simp only at hsid hscen hst
  subst hscen
  simp only [handleTurnSetup, if_neg hsid, hst]
  refine ⟨_, rfl, rfl, rfl, ?_, ?_⟩
  · intro st' h
    simp only [if_pos rfl] at h
    injection h with h
    subst h
    rfl
  · intro k hk
    simp [hk]
/-- Witness for claim C6 on a concrete stored session and differing
caller scenario. -/
theorem C6_scenario_flow_witness :
    (let st0 : ConversationState :=
      { messages :=
          [⟨Role.system, MsgContent.text (getSystemPrompt Scenario.refinanceCheck),
            none, [], none⟩],
        scenario := Scenario.refinanceCheck, extractedData := [] }
     let store : String → Option ConversationState :=
       fun k => if k = "s1" then some st0 else none
     ∃ setup, handleTurnSetup store
         { message := "hi", sessionId := "s1", scenario := some Scenario.buyVsRent }
         = Except.ok setup ∧
       setup.dispatchScenario = Scenario.buyVsRent ∧
       setup.tools = getAvailableTools Scenario.buyVsRent ∧
       (∀ st7, setup.store "s1" = some st7 → st7.scenario = st0.scenario) ∧
       (∀ k, k ≠ "s1" → setup.store k = store k)) :=
  C6_scenario_flow _ _ _ _ (by decide) rfl rfl

/-- Claim C7, counterexample: the extractor patterns only match a number
that precedes the keyword, so "rent is 8k aed" is captured by the price
pattern (via the currency marker) as propertyPrice = 8000 with no
monthlyRent at all, and "property 1.5m" matches nothing, refuting both of
the claim's examples. -/
theorem C7_counterexample :
    extractParameters "rent is 8k aed" = { propertyPrice := some 8000 } ∧
    (extractParameters "rent is 8k aed").monthlyRent = none ∧
    extractParameters "property 1.5m" = ({} : ExtractedParams) ∧
    (extractParameters "property 1.5m").propertyPrice = none := by
  have p1 : reFind (extractorFuel ("rent is 8k aed".data.length)) amountGroup priceLookahead
      none ("rent is 8k aed".data) = some ['8', 'k'] := by decide
  have p2 : reFind (extractorFuel ("rent is 8k aed".data.length)) amountGroup incomeLookahead
      none ("rent is 8k aed".data) = none := by decide
  have p3 : reFind (extractorFuel ("rent is 8k aed".data.length)) amountGroup downLookahead
      none ("rent is 8k aed".data) = none := by decide
  have p4 : reFind (extractorFuel ("rent is 8k aed".data.length)) amountGroup rentLookahead
      none ("rent is 8k aed".data) = none := by decide
  have p5 : reFind (extractorFuel ("rent is 8k aed".data.length)) yearsGroup tenureLookahead
      none ("rent is 8k aed".data) = none := by decide
  have p6 : reFind (extractorFuel ("rent is 8k aed".data.length)) yearsGroup stayLookahead
      none ("rent is 8k aed".data) = none := by decide
  have q1 : reFind (extractorFuel ("property 1.5m".data.length)) amountGroup priceLookahead
      none ("property 1.5m".data) = none := by decide
  have q2 : reFind (extractorFuel ("property 1.5m".data.length)) amountGroup incomeLookahead
      none ("property 1.5m".data) = none := by decide
  have q3 : reFind (extractorFuel ("property 1.5m".data.length)) amountGroup downLookahead
      none ("property 1.5m".data) = none := by decide
  have q4 : reFind (extractorFuel ("property 1.5m".data.length)) amountGroup rentLookahead
      none ("property 1.5m".data) = none := by decide
  have q5 : reFind (extractorFuel ("property 1.5m".data.length)) yearsGroup tenureLookahead
      none ("property 1.5m".data) = none := by decide
  have q6 : reFind (extractorFuel ("property 1.5m".data.length)) yearsGroup stayLookahead
      none ("property 1.5m".data) = none := by decide
  refine ⟨?_, ?_, ?_, ?_⟩
  · simp only [extractParameters, p1, p2, p3, p4, p5, p6]
    simp [posGuard, parseNumberWithSuffix, parseFloatQ, digitsToNat]
    all_goals norm_num
  · simp only [extractParameters, p1, p2, p3, p4, p5, p6]
    simp [posGuard]
  · simp only [extractParameters, q1, q2, q3, q4, q5, q6]
    simp [posGuard]
  · simp only [extractParameters, q1, q2, q3, q4, q5, q6]
    simp [posGuard]

/-- Claim C7, amended: `extractParameters` recognizes an amount only when
the number precedes the keyword: "8k rent" yields monthlyRent = 8000,
"1.5m property" yields propertyPrice = 1500000, "20k down" yields
downPayment = 20000 (k/m magnitude suffixes normalized), "rent is 8k aed"
yields propertyPrice = 8000 via the currency marker, and text with no
recognizable pattern yields the empty mapping; the function is total and
never raises. -/
theorem C7_extractParameters_amended :
    extractParameters "8k rent" = { monthlyRent := some 8000 } ∧
    extractParameters "1.5m property" = { propertyPrice := some 1500000 } ∧
    extractParameters "20k down" = { downPayment := some 20000 } ∧
    extractParameters "rent is 8k aed" = { propertyPrice := some 8000 } ∧
    extractParameters "hello there" = ({} : ExtractedParams) := by
  have a1 : reFind (extractorFuel ("8k rent".data.length)) amountGroup priceLookahead
      none ("8k rent".data) = none := by decide
  have a2 : reFind (extractorFuel ("8k rent".data.length)) amountGroup incomeLookahead
      none ("8k rent".data) = none := by decide
  have a3 : reFind (extractorFuel ("8k rent".data.length)) amountGroup downLookahead
      none ("8k rent".data) = none := by decide
  have a4 : reFind (extractorFuel ("8k rent".data.length)) amountGroup rentLookahead
      none ("8k rent".data) = some ['8', 'k'] := by decide
  have a5 : reFind (extractorFuel ("8k rent".data.length)) yearsGroup tenureLookahead
      none ("8k rent".data) = none := by decide
  have a6 : reFind (extractorFuel ("8k rent".data.length)) yearsGroup stayLookahead
      none ("8k rent".data) = none := by decide
  have b1 : reFind (extractorFuel ("1.5m property".data.length)) amountGroup priceLookahead
      none ("1.5m property".data) = some ['1', '.', '5', 'm'] := by decide
  have b2 : reFind (extractorFuel ("1.5m property".data.length)) amountGroup incomeLookahead
      none ("1.5m property".data) = none := by decide
  have b3 : reFind (extractorFuel ("1.5m property".data.length)) amountGroup downLookahead
      none ("1.5m property".data) = none := by decide
  have b4 : reFind (extractorFuel ("1.5m property".data.length)) amountGroup rentLookahead
      none ("1.5m property".data) = none := by decide
  have b5 : reFind (extractorFuel ("1.5m property".data.length)) yearsGroup tenureLookahead
      none ("1.5m property".data) = none := by decide
  have b6 : reFind (extractorFuel ("1.5m property".data.length)) yearsGroup stayLookahead
      none ("1.5m property".data) = none := by decide
  have c1 : reFind (extractorFuel ("20k down".data.length)) amountGroup priceLookahead
      none ("20k down".data) = none := by decide
  have c2 : reFind (extractorFuel ("20k down".data.length)) amountGroup incomeLookahead
      none ("20k down".data) = none := by decide
  have c3 : reFind (extractorFuel ("20k down".data.length)) amountGroup downLookahead
      none ("20k down".data) = some ['2', '0', 'k'] := by decide
  have c4 : reFind (extractorFuel ("20k down".data.length)) amountGroup rentLookahead
      none ("20k down".data) = none := by decide
  have c5 : reFind (extractorFuel ("20k down".data.length)) yearsGroup tenureLookahead
      none ("20k down".data) = none := by decide
  have c6 : reFind (extractorFuel ("20k down".data.length)) yearsGroup stayLookahead
      none ("20k down".data) = none := by decide
  have d1 : reFind (extractorFuel ("rent is 8k aed".data.length)) amountGroup priceLookahead
      none ("rent is 8k aed".data) = some ['8', 'k'] := by decide
  have d2 : reFind (extractorFuel ("rent is 8k aed".data.length)) amountGroup incomeLookahead
      none ("rent is 8k aed".data) = none := by decide
  have d3 : reFind (extractorFuel ("rent is 8k aed".data.length)) amountGroup downLookahead
      none ("rent is 8k aed".data) = none := by decide
  have d4 : reFind (extractorFuel ("rent is 8k aed".data.length)) amountGroup rentLookahead
      none ("rent is 8k aed".data) = none := by decide
  have d5 : reFind (extractorFuel ("rent is 8k aed".data.length)) yearsGroup tenureLookahead
      none ("rent is 8k aed".data) = none := by decide
  have d6 : reFind (extractorFuel ("rent is 8k aed".data.length)) yearsGroup stayLookahead
      none ("rent is 8k aed".data) = none := by decide
  have e1 : reFind (extractorFuel ("hello there".data.length)) amountGroup priceLookahead
      none ("hello there".data) = none := by decide
  have e2 : reFind (extractorFuel ("hello there".data.length)) amountGroup incomeLookahead
      none ("hello there".data) = none := by decide
  have e3 : reFind (extractorFuel ("hello there".data.length)) amountGroup downLookahead
      none ("hello there".data) = none := by decide
  have e4 : reFind (extractorFuel ("hello there".data.length)) amountGroup rentLookahead
      none ("hello there".data) = none := by decide
  have e5 : reFind (extractorFuel ("hello there".data.length)) yearsGroup tenureLookahead
      none ("hello there".data) = none := by decide
  have e6 : reFind (extractorFuel ("hello there".data.length)) yearsGroup stayLookahead
      none ("hello there".data) = none := by decide
  refine ⟨?_, ?_, ?_, ?_, ?_⟩
  · simp only [extractParameters, a1, a2, a3, a4, a5, a6]
    simp [posGuard, parseNumberWithSuffix, parseFloatQ, digitsToNat]
    all_goals norm_num
  · simp only [extractParameters, b1, b2, b3, b4, b5, b6]
    simp [posGuard, parseNumberWithSuffix, parseFloatQ, digitsToNat]
    all_goals norm_num
  · simp only [extractParameters, c1, c2, c3, c4, c5, c6]
    simp [posGuard, parseNumberWithSuffix, parseFloatQ, digitsToNat]
    all_goals norm_num
  · simp only [extractParameters, d1, d2, d3, d4, d5, d6]
    simp [posGuard, parseNumberWithSuffix, parseFloatQ, digitsToNat]
    all_goals norm_num
  · simp only [extractParameters, e1, e2, e3, e4, e5, e6]
    simp [posGuard, parseNumberWithSuffix, parseFloatQ, digitsToNat]
    all_goals norm_num

/-- Helper: the `if (val && val > 0)` guard only lets strictly positive
values through. -/
theorem posGuard_pos (o : Option ℚ) (v : ℚ) (h : posGuard o = some v) : 0 < v := by
  cases o with
  | none => simp [posGuard] at h
  | some q =>
      simp only [posGuard, Option.bind] at h
      split_ifs at h with hq
      injection h with h
      subst h
      exact hq

/-- Claim C10: for every input string, every field present in the mapping
returned by `extractParameters` holds a strictly positive number: a match
whose magnitude parses to zero, to a non-positive value, or to NaN is
dropped rather than emitted. -/
theorem C10_extractParameters_positive (msg : String) :
    (∀ v, (extractParameters msg).propertyPrice = some v → 0 < v) ∧
    (∀ v, (extractParameters msg).income = some v → 0 < v) ∧
    (∀ v, (extractParameters msg).downPayment = some v → 0 < v) ∧
    (∀ v, (extractParameters msg).tenure = some v → 0 < v) ∧
    (∀ v, (extractParameters msg).monthlyRent = some v → 0 < v) ∧
    (∀ v, (extractParameters msg).stayDuration = some v → 0 < v) := by
  simp only [extractParameters]
  exact ⟨fun v h => posGuard_pos _ v h, fun v h => posGuard_pos _ v h,
    fun v h => posGuard_pos _ v h, fun v h => posGuard_pos _ v h,
    fun v h => posGuard_pos _ v h, fun v h => posGuard_pos _ v h⟩

/-- Witness for claim C10 at the concrete input "8k rent". -/
theorem C10_extractParameters_positive_witness :
    (extractParameters "8k rent").monthlyRent = some 8000 ∧ (0 : ℚ) < 8000 := by
  have a1 : reFind (extractorFuel ("8k rent".data.length)) amountGroup priceLookahead
      none ("8k rent".data) = none := by decide
  have a4 : reFind (extractorFuel ("8k rent".data.length)) amountGroup rentLookahead
      none ("8k rent".data) = some ['8', 'k'] := by decide
  have hmr : (extractParameters "8k rent").monthlyRent = some 8000 := by
    simp only [extractParameters, a4]
    simp [posGuard, parseNumberWithSuffix, parseFloatQ, digitsToNat]
    norm_num
  exact ⟨hmr, (C10_extractParameters_positive "8k rent").2.2.2.2.1 8000 hmr⟩

/-- Helper: `String.join` at the character level. -/
theorem foldl_append_data (l : List String) :
    ∀ init : String, (l.foldl (· ++ ·) init).data = init.data ++ (l.map (·.data)).flatten := by
  induction l with
  | nil => intro init; simp
  | cons a l ih => intro init; simp [List.foldl_cons, ih]

/-- Helper: the 10-character chunking loop reassembles to the original
text. -/
theorem chunkifyGo_join (f : Nat) : ∀ l : List Char, l.length ≤ f →
    ((chunkifyGo f l).map (·.data)).flatten = l := by
  induction f with
  | zero =>
      intro l hl
      have : l = [] := List.eq_nil_of_length_eq_zero (Nat.le_zero.mp hl)
      subst this
      rfl
  | succ f ih =>
      intro l hl
      cases l with
      | nil => rfl
      | cons c r =>
          simp only [chunkifyGo, List.map_cons, List.flatten_cons]
          rw [ih ((c :: r).drop 10) (by simp at hl ⊢; omega)]
          exact List.take_append_drop 10 (c :: r)

/-- Helper: `String.join (chunkify c) = c`. -/
theorem chunkify_join (c : String) : String.join (chunkify c) = c := by
  apply String.ext
  rw [show String.join (chunkify c) = (chunkify c).foldl (· ++ ·) "" from rfl]
  rw [foldl_append_data]
  simp [chunkify]
  exact chunkifyGo_join _ c.data (le_refl _)

/-- Helper: tool-execution actions emit no stream fragments. -/
theorem toolCallActions_no_fragments (scen : Scenario) (tcs : List MistralToolCall) :
    emittedFragments (tcs.flatMap (toolCallActions scen)) = [] := by
  induction tcs with
  | nil => rfl
  | cons tc rest ih =>
      rw [List.flatMap_cons]
      unfold emittedFragments at ih ⊢
      rw [List.filterMap_append, ih, List.append_nil]
      cases harg : tc.arguments <;> simp [toolCallActions, harg]

/-- Helper: tool-execution actions append no plain assistant turn. -/
theorem toolCallActions_no_finalAssistant (scen : Scenario) (tcs : List MistralToolCall) :
    finalAssistantAppends (tcs.flatMap (toolCallActions scen)) = [] := by
  induction tcs with
  | nil => rfl
  | cons tc rest ih =>
      rw [List.flatMap_cons]
      unfold finalAssistantAppends appendedMessages at ih ⊢
      rw [List.filterMap_append, List.filter_append, ih, List.append_nil]
      cases harg : tc.arguments <;> simp [toolCallActions, harg]

/-- Helper: the no-tool-call narrative path ends with the final assistant
turn and the end marker, and emits exactly the chunked content. -/
theorem noToolCallActions_spec (content : Option String) :
    noToolCallActions content
        = ((chunkify (content.getD "")).map (fun ch => TurnAction.emit (.fragment ch none)))
          ++ [TurnAction.append ⟨Role.assistant, MsgContent.text (content.getD ""), none, [], none⟩,
              TurnAction.emit StreamEvent.done] ∧
    emittedFragments (noToolCallActions content) = chunkify (content.getD "") ∧
    finalAssistantAppends (noToolCallActions content)
      = [⟨Role.assistant, MsgContent.text (content.getD ""), none, [], none⟩] := by
  have hfm : ∀ l : List String,
      List.filterMap (fun a => match a with
        | TurnAction.emit (StreamEvent.fragment c _) => some c
        | _ => none) (l.map (fun ch => TurnAction.emit (StreamEvent.fragment ch none))) = l := by
    intro l
    induction l with
    | nil => rfl
    | cons a l ih => simp [ih]
  refine ⟨rfl, ?_, ?_⟩
  · unfold noToolCallActions emittedFragments
    rw [List.filterMap_append, hfm]
    simp
  · unfold noToolCallActions finalAssistantAppends appendedMessages
    rw [List.filterMap_append, List.filter_append]
    simp

/-- Helper: tool-execution actions never contain the end-of-turn marker. -/
theorem done_not_mem_toolCallActions (scen : Scenario) (tcs : List MistralToolCall) :
    TurnAction.emit StreamEvent.done ∉ tcs.flatMap (toolCallActions scen) := by
  induction tcs with
  | nil => simp
  | cons tc rest ih =>
      rw [List.flatMap_cons, List.mem_append]
      rintro (h | h)
      · cases harg : tc.arguments with
        | none =>
            simp only [toolCallActions, harg, List.mem_singleton] at h
            cases h
        | some args =>
            simp only [toolCallActions, harg, List.mem_cons, List.not_mem_nil,
              or_false] at h
            rcases h with h | h <;> cases h
      · exact ih h

/-- Claim C8, amended: when the round-1 provider call throws, the turn emits
one fallback fragment and the end-of-turn marker and appends no assistant
turn; on the no-tool-call path and on the tool path whose round-2 call
returns a completed stream or a non-stream response, exactly one plain
assistant turn containing the complete accumulated narrative (the
concatenation of all emitted fragments) is appended, immediately before the
final end-of-turn marker; when the round-2 call itself throws, one fallback
fragment and the marker are emitted with no assistant turn appended; but
when the round-2 stream rejects *during* iteration — the `for await` loop
lies outside the inner try/catch — the outer catch aborts the stream with a
stream error: the already-received fragments are all that was emitted, no
fallback fragment, no assistant turn, and no end-of-turn marker at all. -/
theorem C8_runTurn_paths (scen : Scenario) (r1 : Round1Result) (r2 : Round2Result)
    (hns : r1 ≠ Round1Result.stream) :
    (r1 = Round1Result.threw →
      runTurn scen r1 r2
        = [TurnAction.emit (StreamEvent.fragment fallbackInitial none),
           TurnAction.emit StreamEvent.done] ∧
      finalAssistantAppends (runTurn scen r1 r2) = []) ∧
    (∀ resp, r1 = Round1Result.response resp →
      (resp.map (fun m => m.2)).getD [] = [] →
      ∃ pre s, runTurn scen r1 r2
          = pre ++ [TurnAction.append ⟨Role.assistant, MsgContent.text s, none, [], none⟩,
                    TurnAction.emit StreamEvent.done] ∧
        s = String.join (emittedFragments (runTurn scen r1 r2)) ∧
        finalAssistantAppends (runTurn scen r1 r2)
          = [⟨Role.assistant, MsgContent.text s, none, [], none⟩]) ∧
    (∀ content toolCalls, r1 = Round1Result.response (some (content, toolCalls)) →
      toolCalls ≠ [] → r2 = Round2Result.threw →
      (∃ pre, runTurn scen r1 r2 = pre ++ [TurnAction.emit StreamEvent.done]) ∧
      emittedFragments (runTurn scen r1 r2) = [fallbackFinal] ∧
      finalAssistantAppends (runTurn scen r1 r2) = []) ∧
    (∀ content toolCalls, r1 = Round1Result.response (some (content, toolCalls)) →
      toolCalls ≠ [] →
      ((∃ chunks, r2 = Round2Result.streamOk chunks) ∨
        (∃ c, r2 = Round2Result.nonStream c)) →
      ∃ pre s, runTurn scen r1 r2
          = pre ++ [TurnAction.append ⟨Role.assistant, MsgContent.text s, none, [], none⟩,
                    TurnAction.emit StreamEvent.done] ∧
        s = String.join (emittedFragments (runTurn scen r1 r2)) ∧
        finalAssistantAppends (runTurn scen r1 r2)
          = [⟨Role.assistant, MsgContent.text s, none, [], none⟩]) ∧
    (∀ content toolCalls chunks,
      r1 = Round1Result.response (some (content, toolCalls)) →
      toolCalls ≠ [] → r2 = Round2Result.streamFailed chunks →
      runTurn scen r1 r2
        = (TurnAction.append ⟨Role.assistant, MsgContent.text (content.getD ""),
              none, toolCalls, none⟩
            :: toolCalls.flatMap (toolCallActions scen))
          ++ (chunks.map fun c =>
                TurnAction.emit (StreamEvent.fragment c (lastToolUsed toolCalls)))
          ++ [TurnAction.streamError] ∧
      emittedFragments (runTurn scen r1 r2) = chunks ∧
      finalAssistantAppends (runTurn scen r1 r2) = [] ∧
      TurnAction.emit StreamEvent.done ∉ runTurn scen r1 r2) := by
  have hNT : ∀ content : Option String,
      (∃ pre, noToolCallActions content = pre ++ [TurnAction.emit StreamEvent.done]) ∧
      (∃ pre s, noToolCallActions content
          = pre ++ [TurnAction.append ⟨Role.assistant, MsgContent.text s, none, [], none⟩,
                    TurnAction.emit StreamEvent.done] ∧
        s = String.join (emittedFragments (noToolCallActions content)) ∧
        finalAssistantAppends (noToolCallActions content)
          = [⟨Role.assistant, MsgContent.text s, none, [], none⟩]) := by
    intro content
    obtain ⟨he, hf, hg⟩ := noToolCallActions_spec content
    constructor
    · refine ⟨((chunkify (content.getD "")).map
        (fun ch => TurnAction.emit (.fragment ch none)))
        ++ [TurnAction.append ⟨Role.assistant, MsgContent.text (content.getD ""), none, [], none⟩], ?_⟩
      rw [he]
      simp [List.append_assoc]
    · refine ⟨(chunkify (content.getD "")).map (fun ch => TurnAction.emit (.fragment ch none)),
        content.getD "", he, ?_, hg⟩
      rw [hf, chunkify_join]
  cases r1 with
  | stream => exact absurd rfl hns
  | threw =>
      refine ⟨fun _ => ⟨rfl, rfl⟩, ?_, ?_, ?_, ?_⟩
      · intro resp h
        cases h
      · intro content toolCalls h
        cases h
      · intro content toolCalls h
        cases h
      · intro content toolCalls chunks h
        cases h
  | response resp =>
      cases resp with
      | none =>
          obtain ⟨hA, hD⟩ := hNT none
          refine ⟨fun h => (by cases h), ?_, ?_, ?_, ?_⟩
          · intro resp' h _
            cases h
            exact hD
          · intro content toolCalls h
            cases h
          · intro content toolCalls h
            cases h
          · intro content toolCalls chunks h
            cases h
      | some msg =>
          obtain ⟨content, toolCalls⟩ := msg
          by_cases hemp : toolCalls.isEmpty
          · have hrt : runTurn scen (.response (some (content, toolCalls))) r2
                = noToolCallActions content := by
              simp [runTurn, hemp]
            obtain ⟨hA, hD⟩ := hNT content
            refine ⟨fun h => (by cases h), ?_, ?_, ?_, ?_⟩
            · intro resp' h _
              cases h
              rw [hrt]
              exact hD
            · intro content' toolCalls' h hne _
              have h2 : toolCalls = toolCalls' :=
                congrArg Prod.snd (Option.some.inj (Round1Result.response.inj h))
              exact absurd (h2 ▸ List.isEmpty_iff.mp hemp) hne
            · intro content' toolCalls' h hne _
              have h2 : toolCalls = toolCalls' :=
                congrArg Prod.snd (Option.some.inj (Round1Result.response.inj h))
              exact absurd (h2 ▸ List.isEmpty_iff.mp hemp) hne
            · intro content' toolCalls' chunks h hne _
              have h2 : toolCalls = toolCalls' :=
                congrArg Prod.snd (Option.some.inj (Round1Result.response.inj h))
              exact absurd (h2 ▸ List.isEmpty_iff.mp hemp) hne
          · have hplain : toolCalls.isEmpty = false := by
              cases h : toolCalls.isEmpty
              · rfl
              · exact absurd h hemp
            have hgd : ∀ resp' : Option (Option String × List MistralToolCall),
                Round1Result.response (some (content, toolCalls)) = .response resp' →
                (resp'.map (fun m => m.2)).getD [] = [] → False := by
              intro resp' h hc
              have h1 := Round1Result.response.inj h
              subst h1
              simp at hc
              subst hc
              simp at hplain
            have hE := toolCallActions_no_fragments scen toolCalls
            have hF := toolCallActions_no_finalAssistant scen toolCalls
            have hfm : ∀ l : List String,
                List.filterMap (fun a => match a with
                  | TurnAction.emit (StreamEvent.fragment c _) => some c
                  | _ => none)
                  (l.map (fun ch => TurnAction.emit
                    (StreamEvent.fragment ch (lastToolUsed toolCalls)))) = l := by
              intro l
              induction l with
              | nil => rfl
              | cons a l ih => simp [ih]
            cases r2 with
            | threw =>
                have hrt : runTurn scen (.response (some (content, toolCalls))) .threw
                    = TurnAction.append ⟨Role.assistant, MsgContent.text (content.getD ""),
                        none, toolCalls, none⟩
                      :: (toolCalls.flatMap (toolCallActions scen)
                        ++ [TurnAction.emit (StreamEvent.fragment fallbackFinal none),
                            TurnAction.emit StreamEvent.done]) := by
                  simp [runTurn, hemp]
                refine ⟨fun h => (by cases h), fun resp' h hc => (hgd resp' h hc).elim,
                  ?_, ?_, ?_⟩
                · intro content' toolCalls' h _ _
                  rw [hrt]
                  refine ⟨⟨TurnAction.append ⟨Role.assistant, MsgContent.text (content.getD ""),
                      none, toolCalls, none⟩
                      :: (toolCalls.flatMap (toolCallActions scen)
                        ++ [TurnAction.emit (StreamEvent.fragment fallbackFinal none)]), ?_⟩,
                    ?_, ?_⟩
                  · simp [List.append_assoc]
                  · unfold emittedFragments at hE ⊢
                    simp [List.filterMap_append, hE]
                  · unfold finalAssistantAppends appendedMessages at hF ⊢
                    simp [List.filterMap_append, List.filter_append, hF, hplain]
                · intro content' toolCalls' h _ hdisj
                  rcases hdisj with ⟨chunks, hx⟩ | ⟨c, hx⟩ <;> cases hx
                · intro content' toolCalls' chunks h _ hx
                  cases hx
            | streamOk chunks =>
                have hrt : runTurn scen (.response (some (content, toolCalls))) (.streamOk chunks)
                    = TurnAction.append ⟨Role.assistant, MsgContent.text (content.getD ""),
                        none, toolCalls, none⟩
                      :: (toolCalls.flatMap (toolCallActions scen)
                        ++ ((chunks.map fun c =>
                              TurnAction.emit (.fragment c (lastToolUsed toolCalls)))
                          ++ [TurnAction.append ⟨Role.assistant,
                                MsgContent.text (String.join chunks), none, [], none⟩,
                              TurnAction.emit StreamEvent.done])) := by
                  simp [runTurn, hemp]
                have hfrag : emittedFragments
                    (runTurn scen (.response (some (content, toolCalls))) (.streamOk chunks))
                    = chunks := by
                  rw [hrt]
                  unfold emittedFragments at hE ⊢
                  simp [List.filterMap_append, hE, hfm]
                refine ⟨fun h => (by cases h), fun resp' h hc => (hgd resp' h hc).elim,
                  ?_, ?_, ?_⟩
                · intro content' toolCalls' h _ hx
                  cases hx
                · intro content' toolCalls' h _ _
                  refine ⟨TurnAction.append ⟨Role.assistant, MsgContent.text (content.getD ""),
                      none, toolCalls, none⟩
                      :: (toolCalls.flatMap (toolCallActions scen)
                        ++ (chunks.map fun c =>
                              TurnAction.emit (.fragment c (lastToolUsed toolCalls)))),
                    String.join chunks, ?_, ?_, ?_⟩
                  · rw [hrt]
                    simp [List.append_assoc]
                  · rw [hfrag]
                  · rw [hrt]
                    unfold finalAssistantAppends appendedMessages at hF ⊢
                    simp [List.filterMap_append, List.filter_append, hF, hplain]
                · intro content' toolCalls' chunks' h _ hx
                  cases hx
            | streamFailed chunks =>
                have hrt : runTurn scen (.response (some (content, toolCalls)))
                    (.streamFailed chunks)
                    = TurnAction.append ⟨Role.assistant, MsgContent.text (content.getD ""),
                        none, toolCalls, none⟩
                      :: (toolCalls.flatMap (toolCallActions scen)
                        ++ ((chunks.map fun c =>
                              TurnAction.emit (.fragment c (lastToolUsed toolCalls)))
                          ++ [TurnAction.streamError])) := by
                  simp [runTurn, hemp]
                refine ⟨fun h => (by cases h), fun resp' h hc => (hgd resp' h hc).elim,
                  ?_, ?_, ?_⟩
                · intro content' toolCalls' h _ hx
                  cases hx
                · intro content' toolCalls' h _ hdisj
                  rcases hdisj with ⟨chunks', hx⟩ | ⟨c, hx⟩ <;> cases hx
                · intro content' toolCalls' chunks' h _ hx
                  have h1 := Option.some.inj (Round1Result.response.inj h)
                  have hc1 : content = content' := congrArg Prod.fst h1
                  have hc2 : toolCalls = toolCalls' := congrArg Prod.snd h1
                  subst hc1
                  subst hc2
                  have hcc : chunks = chunks' := Round2Result.streamFailed.inj hx
                  subst hcc
                  refine ⟨?_, ?_, ?_, ?_⟩
                  · rw [hrt]
                    simp [List.append_assoc]
                  · rw [hrt]
                    unfold emittedFragments at hE ⊢
                    simp [List.filterMap_append, hE, hfm]
                  · rw [hrt]
                    unfold finalAssistantAppends appendedMessages at hF ⊢
                    simp [List.filterMap_append, List.filter_append, hF, hplain]
                  · rw [hrt]
                    intro hmem
                    rcases List.mem_cons.mp hmem with h0 | h0
                    · cases h0
                    rcases List.mem_append.mp h0 with h1 | h1
                    · exact done_not_mem_toolCallActions scen toolCalls h1
                    rcases List.mem_append.mp h1 with h2 | h2
                    · obtain ⟨c, _, hc⟩ := List.mem_map.mp h2
                      cases hc
                    · cases List.mem_singleton.mp h2
            | nonStream c =>
                have hrt : runTurn scen (.response (some (content, toolCalls))) (.nonStream c)
                    = TurnAction.append ⟨Role.assistant, MsgContent.text (content.getD ""),
                        none, toolCalls, none⟩
                      :: (toolCalls.flatMap (toolCallActions scen)
                        ++ [TurnAction.emit (.fragment (c.getD "") (lastToolUsed toolCalls)),
                            TurnAction.append ⟨Role.assistant, MsgContent.text (c.getD ""),
                              none, [], none⟩,
                            TurnAction.emit StreamEvent.done]) := by
                  simp [runTurn, hemp]
                have hfrag : emittedFragments
                    (runTurn scen (.response (some (content, toolCalls))) (.nonStream c))
                    = [c.getD ""] := by
                  rw [hrt]
                  unfold emittedFragments at hE ⊢
                  simp [List.filterMap_append, hE]
                refine ⟨fun h => (by cases h), fun resp' h hc => (hgd resp' h hc).elim,
                  ?_, ?_, ?_⟩
                · intro content' toolCalls' h _ hx
                  cases hx
                · intro content' toolCalls' h _ _
                  refine ⟨TurnAction.append ⟨Role.assistant, MsgContent.text (content.getD ""),
                      none, toolCalls, none⟩
                      :: (toolCalls.flatMap (toolCallActions scen)
                        ++ [TurnAction.emit (.fragment (c.getD "") (lastToolUsed toolCalls))]),
                    c.getD "", ?_, ?_, ?_⟩
                  · rw [hrt]
                    simp [List.append_assoc]
                  · rw [hfrag]
                    simp [String.join]
                  · rw [hrt]
                    unfold finalAssistantAppends appendedMessages at hF ⊢
                    simp [List.filterMap_append, List.filter_append, hF, hplain]
                · intro content' toolCalls' chunks' h _ hx
                  cases hx

/-- Claim C8, counterexample: when the round-1 provider call fails, the
turn emits the fallback fragment and the end-of-turn marker but appends no
final assistant turn to the session, refuting the claim that one is
appended on every path. -/
theorem C8_counterexample :
    runTurn Scenario.buyVsRent Round1Result.threw Round2Result.threw
      = [TurnAction.emit (StreamEvent.fragment fallbackInitial none),
         TurnAction.emit StreamEvent.done] ∧
    finalAssistantAppends
      (runTurn Scenario.buyVsRent Round1Result.threw Round2Result.threw) = [] :=
  ⟨rfl, rfl⟩

/-- Witness for claim C8: the no-tool-call path appends exactly one
narrative assistant turn before the end marker, and a concrete tool-path
turn whose round-2 stream fails mid-iteration emits no end marker. -/
theorem C8_runTurn_paths_witness :
    (∃ pre s, runTurn Scenario.buyVsRent (Round1Result.response none) Round2Result.threw
        = pre ++ [TurnAction.append ⟨Role.assistant, MsgContent.text s, none, [], none⟩,
                  TurnAction.emit StreamEvent.done] ∧
      s = String.join (emittedFragments
        (runTurn Scenario.buyVsRent (Round1Result.response none) Round2Result.threw)) ∧
      finalAssistantAppends
        (runTurn Scenario.buyVsRent (Round1Result.response none) Round2Result.threw)
        = [⟨Role.assistant, MsgContent.text s, none, [], none⟩]) ∧
    TurnAction.emit StreamEvent.done ∉
      runTurn Scenario.buyVsRent
        (Round1Result.response (some (some "hi",
          [⟨"1", "calculate_mortgage", some { propertyPrice := some 100 }⟩])))
        (Round2Result.streamFailed ["par"]) :=
  ⟨(C8_runTurn_paths Scenario.buyVsRent (Round1Result.response none) Round2Result.threw
      (by intro h; cases h)).2.1 none rfl rfl,
   ((C8_runTurn_paths Scenario.buyVsRent
      (Round1Result.response (some (some "hi",
        [⟨"1", "calculate_mortgage", some { propertyPrice := some 100 }⟩])))
      (Round2Result.streamFailed ["par"]) (by intro h; cases h)).2.2.2.2
      (some "hi") [⟨"1", "calculate_mortgage", some { propertyPrice := some 100 }⟩]
      ["par"] rfl (by intro h; cases h) rfl).2.2.2⟩
